import Mathlib

/-!
# ultimate-go-programming: a shallow embedding of the example functions

The repository is a library of independent Go example functions.  Each function is
embedded as a Lean program in the monad `Go`, which records the calls made to the
printing and timing packages and stops at the first runtime panic.

Conventions of the embedding:
* Go `int` and `int64` are `Int`; arithmetic that can leave the 64-bit range is wrapped
  with `wrapInt64`.
* Go `float64`/`float32` values are carried by their exact rational value, each operation
  rounding to nearest-even as IEEE 754 prescribes (`FloatVal`).
* A pointer receiver or a pointer argument becomes explicit state passing.
* What the Go runtime chooses (addresses, map iteration order, slice growth, the clock)
  is a field of `Runtime`, over which the theorems quantify.
-/

namespace UltimateGo

/-! ## Runtime panics -/

/-- Abnormal ends of a run: the runtime panics the modelled code can raise, the exhaustion
of the call depth the embedding follows, and a process exit through `log.Fatal`. -/
inductive Panic
  | divideByZero
  | indexOutOfRange (index length : Int)
  | sliceBoundsOutOfRange (bound limit : Int)
  | nilMapAssignment
  | interfaceConversion
  | nilDereference
  | stackOverflow
  | exit (code : Int)
  deriving DecidableEq, Repr

/-! ## Floating point -/

/-- Round a rational to the nearest integer, ties going to the even neighbour. -/
def roundHalfEven (s : ℚ) : ℤ :=
  let f := ⌊s⌋
  let r := s - f
  if r < 1 / 2 then f
  else if 1 / 2 < r then f + 1
  else if f % 2 = 0 then f else f + 1

/-- Exponent of the unit in the last place of `q` for a binary format with `prec` bits of
significand and least exponent `emin` (the subnormal range). -/
def ulpExponent (prec : ℕ) (emin : ℤ) (q : ℚ) : ℤ :=
  max (Int.log 2 |q| - (prec - 1)) emin

/-- Round-to-nearest-even of a rational onto the binary format `(prec, emin)`. -/
def roundBinary (prec : ℕ) (emin : ℤ) (q : ℚ) : ℚ :=
  let e := ulpExponent prec emin q
  (roundHalfEven (q / (2 : ℚ) ^ e) : ℚ) * (2 : ℚ) ^ e

/-- A floating point value: a finite value (by its exact rational value; the sign of zero is
not tracked), an infinity, or not-a-number. -/
inductive FloatVal
  | finite (q : ℚ)
  | inf (negative : Bool)
  | nan
  deriving DecidableEq

namespace FloatVal

/-- Rounding of an exact result onto a format with largest exponent `emax`:
results at or beyond `2 ^ (emax + 1)` overflow to an infinity. -/
def ofRat (prec : ℕ) (emin emax : ℤ) (q : ℚ) : FloatVal :=
  let r := roundBinary prec emin q
  if |r| < (2 : ℚ) ^ (emax + 1) then finite r else inf (decide (q < 0))

end FloatVal

/-- Go `float64`. -/
abbrev Float64 := FloatVal

namespace Float64

/-- Rounding onto binary64. -/
def ofRat (q : ℚ) : Float64 := FloatVal.ofRat 53 (-1074) 1023 q

/-- Conversion `float64(n)` of an integer. -/
def ofInt (n : ℤ) : Float64 := ofRat n

/-- Product `x * y` on float64. -/
def mul : Float64 → Float64 → Float64
  | .finite a, .finite b => ofRat (a * b)
  | .finite a, .inf s => if a = 0 then .nan else .inf (s != decide (a < 0))
  | .inf s, .finite b => if b = 0 then .nan else .inf (s != decide (b < 0))
  | .inf s, .inf t => .inf (s != t)
  | _, _ => .nan

/-- Sum `x + y` on float64. -/
def add : Float64 → Float64 → Float64
  | .finite a, .finite b => ofRat (a + b)
  | .finite _, .inf s => .inf s
  | .inf s, .finite _ => .inf s
  | .inf s, .inf t => if s = t then .inf s else .nan
  | _, _ => .nan

/-- Quotient `x / y` on float64; a finite non-zero value over zero is an infinity
(of the sign of the dividend, the zero divisors of the modelled code being `+0`). -/
def div : Float64 → Float64 → Float64
  | .finite a, .finite b =>
      if b = 0 then (if a = 0 then .nan else .inf (decide (a < 0))) else ofRat (a / b)
  | .finite _, .inf _ => .finite 0
  | .inf s, .finite b => .inf (s != decide (b < 0))
  | _, _ => .nan

/-- Truncation toward zero of a rational. -/
def truncate (q : ℚ) : ℤ := if 0 ≤ q then ⌊q⌋ else ⌈q⌉

/-- Conversion `int64(x)` of a float64: the fraction is discarded.  A value outside the
int64 range (or an infinity, or NaN) converts to the implementation's "integer
indefinite" value, `-2^63` on amd64. -/
def toInt64 : Float64 → ℤ
  | .finite q =>
      let t := truncate q
      if -2 ^ 63 ≤ t ∧ t < 2 ^ 63 then t else -2 ^ 63
  | _ => -2 ^ 63

end Float64

/-! ## Values, events and the `Go` monad -/

/-- A Go value together with its dynamic type, as it is boxed into `interface{}` when
passed to a printing function. -/
inductive Value
  | bool (b : Bool)
  | int (n : ℤ)
  | int16 (n : ℤ)
  | int32 (n : ℤ)
  | int64 (n : ℤ)
  | uint8 (n : ℤ)
  | float32 (x : FloatVal)
  | float64 (x : FloatVal)
  | string (s : String)
  | stringOfBytes (bytes : List ℤ)
  | named (typeName : String) (underlying : Value)
  | struct (fields : List (String × Value))
  | array (elems : List Value)
  | slice (elems : List Value)
  | address (object : String) (offset : ℕ)
  | pointerTo (pointee : Value)
  | error (message : String)
  | nil

/-- The value holds a Go `string`: one given by its characters or one built from bytes. -/
def Value.isString : Value → Bool
  | .string _ => true
  | .stringOfBytes _ => true
  | _ => false

/-- The value holds a Go `int`. -/
def Value.isInt : Value → Bool
  | .int _ => true
  | _ => false

/-- The value holds a Go `float64`. -/
def Value.isFloat64 : Value → Bool
  | .float64 _ => true
  | _ => false

/-- Observable actions of a run: one event per call into `fmt`, `log`, the builtin
`println`, or `time.Sleep`, with the arguments of the call. -/
inductive Event
  | printf (format : String) (args : List Value)
  | println (args : List Value)
  | print (args : List Value)
  | builtinPrintln (args : List Value)
  | logPrintf (format : String) (args : List Value)
  | logPrintln (args : List Value)
  | logPrint (args : List Value)
  | sleep (nanoseconds : ℤ)

/-- A Go computation: it extends the trace of events and either returns or panics. -/
def Go (α : Type) : Type := List Event → Except Panic α × List Event

instance : Monad Go where
  pure a := fun t => (.ok a, t)
  bind m f := fun t =>
    match m t with
    | (.ok a, t1) => f a t1
    | (.error p, t1) => (.error p, t1)

namespace Go

/-- Record one event. -/
def emit (e : Event) : Go Unit := fun t => (.ok (), t ++ [e])

/-- Raise a runtime panic. -/
def panic {α : Type} (p : Panic) : Go α := fun t => (.error p, t)

/-- Run an operation that may panic. -/
def lift {α : Type} : Except Panic α → Go α
  | .ok a => pure a
  | .error p => panic p

/-- Run a program from the empty trace. -/
def run {α : Type} (m : Go α) : Except Panic α × List Event := m []

/-- The program returns normally, whatever the trace it starts from. -/
def NoPanic {α : Type} (m : Go α) : Prop := ∀ t, ∃ a t1, m t = (.ok a, t1)

end Go

/-- `fmt.Printf`. -/
def fmtPrintf (format : String) (args : List Value) : Go Unit := Go.emit (.printf format args)

/-- `fmt.Println`. -/
def fmtPrintln (args : List Value) : Go Unit := Go.emit (.println args)

/-- `fmt.Print`. -/
def fmtPrint (args : List Value) : Go Unit := Go.emit (.print args)

/-- The builtin `println`. -/
def builtinPrintln (args : List Value) : Go Unit := Go.emit (.builtinPrintln args)

/-- `log.Printf`. -/
def logPrintf (format : String) (args : List Value) : Go Unit := Go.emit (.logPrintf format args)

/-- `log.Println`. -/
def logPrintln (args : List Value) : Go Unit := Go.emit (.logPrintln args)

/-- `time.Second`, in nanoseconds. -/
def timeSecond : ℤ := 1000000000

/-- `time.Sleep`. -/
def timeSleep (d : ℤ) : Go Unit := Go.emit (.sleep d)

/-! ## Maps -/

/-- A Go map: `none` is the nil map, `some l` a map holding the entries `l`
(at most one per key). -/
def GoMap (κ ν : Type) : Type := Option (List (κ × ν))

namespace GoMap

variable {κ ν : Type} [DecidableEq κ]

/-- `make(map[K]V)`. -/
def make : GoMap κ ν := some []

/-- Entries of a map (none for the nil map). -/
def entries : GoMap κ ν → List (κ × ν)
  | none => []
  | some l => l

/-- The comma-ok read `v, ok := m[k]`. -/
def get? (m : GoMap κ ν) (k : κ) : Option ν := (entries m).lookup k

/-- Replace the value under `k`, or add the entry when `k` is new. -/
def insertEntry (k : κ) (v : ν) : List (κ × ν) → List (κ × ν)
  | [] => [(k, v)]
  | (k1, v1) :: rest => if k1 = k then (k, v) :: rest else (k1, v1) :: insertEntry k v rest

/-- The assignment `m[k] = v`; it panics on the nil map. -/
def set (m : GoMap κ ν) (k : κ) (v : ν) : Except Panic (GoMap κ ν) :=
  match m with
  | none => .error .nilMapAssignment
  | some l => .ok (some (insertEntry k v l))

/-- `delete(m, k)`; a no-op on the nil map and on an absent key. -/
def delete (m : GoMap κ ν) (k : κ) : GoMap κ ν :=
  match m with
  | none => none
  | some l => some (l.filter fun e => decide (e.1 ≠ k))

/-- `len(m)`. -/
def len (m : GoMap κ ν) : ℤ := (entries m).length

end GoMap

/-! ## Integers -/

/-- Two's complement wrap-around of an integer result into the int64 range. -/
def wrapInt64 (z : ℤ) : ℤ := (z + 2 ^ 63) % 2 ^ 64 - 2 ^ 63

/-- Go integer quotient `x / y`: truncated, panics on a zero divisor. -/
def intDiv (x y : ℤ) : Except Panic ℤ :=
  if y = 0 then .error .divideByZero else .ok (wrapInt64 (Int.tdiv x y))

/-- Go integer remainder `x % y`: sign of the dividend, panics on a zero divisor. -/
def intMod (x y : ℤ) : Except Panic ℤ :=
  if y = 0 then .error .divideByZero else .ok (Int.tmod x y)

/-! ## methods.go: the `duration` type -/

/-- `type duration int64`: a duration of time in nanoseconds. -/
abbrev duration := ℤ

namespace duration

def nanosecond : duration := 1
def microsecond : duration := 1000 * nanosecond
def millisecond : duration := 1000 * microsecond
def second : duration := 1000 * millisecond
def minute : duration := 60 * second
def hour : duration := 60 * minute

/-- `func (d *duration) setHours(h float64)`: `*d = duration(h) * hour`.
The new value of `*d` is returned. -/
def setHours (_d : duration) (h : Float64) : duration :=
  wrapInt64 (Float64.toInt64 h * hour)

/-- `func (d duration) hours() float64`.  The short variable declaration
`hour := d / hour` introduces a local `hour` that shadows the package constant from
the next statement on, so `nsec := d % hour` divides by the local value. -/
def hours (d : duration) : Except Panic Float64 := do
  let hour ← intDiv d hour
  let nsec ← intMod d hour
  pure (Float64.add (Float64.ofInt hour)
    (Float64.mul (Float64.ofInt nsec) (Float64.ofRat (1e-9 / 60 / 60))))


/-- The hours of a duration as the documentation of `hours` words them: the whole hours
`d / hour` plus the leftover nanoseconds `d % hour` scaled by `1e-9/60/60`, both taken
against the constant `hour`. -/
def hoursAsDocumented (d : duration) : Float64 :=
  Float64.add (Float64.ofInt (Int.tdiv d hour))
    (Float64.mul (Float64.ofInt (Int.tmod d hour)) (Float64.ofRat (1e-9 / 60 / 60)))

end duration

/-- `MethodsExample2`: set a zero duration to five hours and print its hours. -/
def MethodsExample2 : Go Unit := do
  let dur : duration := 0
  let dur := duration.setHours dur (Float64.ofRat 5)
  let h ← Go.lift (duration.hours dur)
  fmtPrintln [.string "Hours:", .float64 h]

/-! ## embedding.go: `Feed` and `CachingFeed` -/

/-- The Go `error` interface value: `none` is `nil`. -/
abbrev GoError := Option String

/-- `Document` is the core data model. -/
structure Document where
  Key : String
  Title : String
  deriving DecidableEq, Repr

/-- `Document` boxed for printing. -/
def Document.toValue (d : Document) : Value :=
  .named "Document" (.struct [("Key", .string d.Key), ("Title", .string d.Title)])

/-- `type Feed struct{}`. -/
structure Feed where
  deriving DecidableEq, Repr

/-- `func (f *Feed) Count() int`. -/
def Feed.Count (_f : Feed) : ℤ := 42

/-- `func (f *Feed) Fetch(key string) (Document, error)`: sleeps one second, then
returns the document made up for `key`. -/
def Feed.Fetch (_f : Feed) (key : String) : Go (Document × GoError) := do
  timeSleep timeSecond
  let doc : Document := { Key := key, Title := "Title for " ++ key }
  pure (doc, none)

/-- `CachingFeed` embeds `Feed` and keeps the documents already retrieved. -/
structure CachingFeed where
  Feed : Feed
  documents : GoMap String Document

/-- `func NewCachingFeed(f *Feed) *CachingFeed`; the argument (`none` for a nil pointer)
is not used: the embedded feed is a fresh `Feed{}`. -/
def NewCachingFeed (_f : Option Feed) : CachingFeed :=
  { Feed := {}, documents := GoMap.make }

/-- `func (cf *CachingFeed) Fetch(key string) (Document, error)`.  The receiver after the
call is returned next to the results. -/
def CachingFeed.Fetch (cf : CachingFeed) (key : String) :
    Go ((Document × GoError) × CachingFeed) := do
  match cf.documents.get? key with
  | some doc => pure ((doc, none), cf)
  | none =>
    let (doc, err) ← cf.Feed.Fetch key
    match err with
    | some e => pure (({ Key := "", Title := "" }, some e), cf)
    | none =>
      let documents ← Go.lift (cf.documents.set key doc)
      pure ((doc, none), { cf with documents := documents })

/-- `CachingFeed.Count`: the method promoted from the embedded `Feed`. -/
def CachingFeed.Count (cf : CachingFeed) : ℤ := cf.Feed.Count

/-- The `FetchCounter` interface, by the two types of the package that implement it
(`*Feed` and `*CachingFeed`). -/
inductive FetchCounter
  | feed (f : Feed)
  | cachingFeed (cf : CachingFeed)

/-- Dynamic dispatch of `Fetch`. -/
def FetchCounter.Fetch : FetchCounter → String → Go ((Document × GoError) × FetchCounter)
  | .feed f, key => do
    let r ← f.Fetch key
    pure (r, .feed f)
  | .cachingFeed cf, key => do
    let (r, cf) ← cf.Fetch key
    pure (r, .cachingFeed cf)

/-- Dynamic dispatch of `Count`. -/
def FetchCounter.Count : FetchCounter → ℤ
  | .feed f => f.Count
  | .cachingFeed cf => cf.Count

/-- The `for _, key := range keys` loop of `process`, leaving the function at the first
error. -/
def processKeys (fc : FetchCounter) : List String → Go FetchCounter
  | [] => pure fc
  | key :: rest => do
    let ((doc, err), fc) ← fc.Fetch key
    match err with
    | some e =>
      logPrintf "Could not fetch %s : %v" [.string key, .error e]
      pure fc
    | none =>
      fmtPrintf "%s : %v\n" [.string key, doc.toValue]
      processKeys fc rest

/-- `func process(fc FetchCounter)`; the state of the receiver after the run is returned. -/
def process (fc : FetchCounter) : Go FetchCounter := do
  fmtPrintf "There are %d documents\n" [.int fc.Count]
  let keys := ["a", "a", "a", "b", "b", "b"]
  processKeys fc keys

/-- `EmbeddingExercise1`. -/
def EmbeddingExercise1 : Go Unit := do
  fmtPrintln [.string "Using Feed directly"]
  let _ ← process (.feed {})
  fmtPrintln [.string "Using CachingFeed"]
  let c := NewCachingFeed (some {})
  let _ ← process (.cachingFeed c)

/-- Successive calls `fc.Fetch(k)` for the keys of a sequence, in order: the results of
the calls and the receiver after the last one. -/
def fetchAll (fc : FetchCounter) : List String → Go (List (Document × GoError) × FetchCounter)
  | [] => pure ([], fc)
  | key :: rest => do
    let (r, fc) ← fc.Fetch key
    let (rs, fc) ← fetchAll fc rest
    pure (r :: rs, fc)

/-- Number of calls of `Feed.Fetch` in a trace: every call sleeps once, and nothing else
sleeps. -/
def feedFetchCalls (t : List Event) : ℕ :=
  t.countP fun e => match e with
    | .sleep _ => true
    | _ => false

/-- Number of lines `process` printed for documents (the `"%s : %v\n"` calls). -/
def documentLines (t : List Event) : ℕ :=
  t.countP fun e => match e with
    | .printf format _ => format == "%s : %v\n"
    | _ => false

/-- Number of `"Could not fetch"` log calls in a trace. -/
def couldNotFetchLines (t : List Event) : ℕ :=
  t.countP fun e => match e with
    | .logPrintf _ _ => true
    | _ => false

/-- The document the specification of `Feed.Fetch` names for a key:
`Document{Key: key, Title: "Title for " + key}`. -/
def documentFor (key : String) : Document := { Key := key, Title := "Title for " ++ key }

/-- Every cached document is the one `Feed.Fetch` returns for its key. -/
def CacheConsistent (l : List (String × Document)) : Prop :=
  ∀ k d, l.lookup k = some d → d = documentFor k

/-- The printing events of a trace: everything but the sleeps. -/
def printed (t : List Event) : List Event :=
  t.filter fun e => match e with
    | .sleep _ => false
    | _ => true

/-- A `CachingFeed` whose map holds one document, cached under `"a"`. -/
def cachingFeedWithA : CachingFeed :=
  { Feed := {}, documents := some [("a", { Key := "a", Title := "Title for a" })] }

/-- The zero value `CachingFeed{}`: its `documents` map is nil. -/
def zeroCachingFeed : CachingFeed := { Feed := {}, documents := none }

/-! ## packages/toy -/

namespace toy

/-- `Toy` has two exported and two unexported fields. -/
structure Toy where
  Name : String
  Weight : ℤ
  onHand : ℤ
  sold : ℤ
  deriving DecidableEq, Repr

/-- `func New(name string, weight int) *Toy`: the fields not named in the literal hold
their zero value. -/
def New (name : String) (weight : ℤ) : Toy :=
  { Name := name, Weight := weight, onHand := 0, sold := 0 }

/-- `func (t *Toy) OnHand() int`. -/
def Toy.OnHand (t : Toy) : ℤ := t.onHand

/-- `func (t *Toy) UpdateOnHand(n int) int`: the updated toy and the returned count. -/
def Toy.UpdateOnHand (t : Toy) (n : ℤ) : Toy × ℤ :=
  let t := { t with onHand := n }
  (t, t.onHand)

/-- `func (t *Toy) Sold() int`. -/
def Toy.Sold (t : Toy) : ℤ := t.sold

/-- `func (t *Toy) UpdateSold(n int) int`: the updated toy and the returned count. -/
def Toy.UpdateSold (t : Toy) (n : ℤ) : Toy × ℤ :=
  let t := { t with sold := n }
  (t, t.sold)

end toy

/-- `ExportingExercise1`. -/
def ExportingExercise1 : Go Unit := do
  let t := toy.New "Monster Truck" 11
  fmtPrintln [.string "On Hand", .int t.OnHand]
  let (t, n) := t.UpdateOnHand 12
  fmtPrintln [.string "On Hand", .int n]
  fmtPrintln [.string "On Hand", .int t.OnHand]
  fmtPrintln [.string "Sold", .int t.Sold]
  let (t, n) := t.UpdateSold 19
  fmtPrintln [.string "Sold", .int n]
  fmtPrintln [.string "Sold", .int t.Sold]
  fmtPrintln [.string t.Name, .int t.Weight]

/-! ## What the runtime decides -/

/-- Choices the Go runtime makes and the language leaves open: the capacity picked when
`append` has to reallocate (given the old capacity and the needed length), the order in
which a `range` over a map visits the keys (it may change from one loop to the next,
hence the loop number), and the clock reading of `time.Now` in nanoseconds. -/
structure Runtime where
  growCap : ℕ → ℕ → ℕ
  mapOrder : ℕ → List String → List String
  mapOrder_perm : ∀ n keys, (mapOrder n keys).Perm keys
  now : ℤ

/-- A runtime that doubles capacities and visits map keys in insertion order. -/
def Runtime.simple : Runtime where
  growCap := fun old needed => max (2 * old) needed
  mapOrder := fun _ keys => keys
  mapOrder_perm := fun _ _ => List.Perm.refl _
  now := 0

/-! ## Arrays and slices -/

/-- The backing arrays allocated so far for elements of type `α`: array number `i` is the
`i`-th entry. -/
structure Heap (α : Type) where
  arrays : List (List α)

/-- A slice header: backing array, offset of the first element in it, length and capacity.
The nil slice has length and capacity 0 and never touches its array. -/
structure Slice where
  arr : ℕ
  off : ℕ
  len : ℕ
  cap : ℕ
  deriving DecidableEq, Repr

/-- The bounds check of an index expression `x[i]` on a sequence of length `len`. -/
def checkIndex (i : ℤ) (len : ℕ) : Except Panic ℕ :=
  if 0 ≤ i ∧ i < len then .ok i.toNat else .error (.indexOutOfRange i len)

namespace Heap

variable {α : Type}

/-- No array allocated. -/
def empty : Heap α := ⟨[]⟩

/-- Allocate a new array with the given contents; its number is returned. -/
def alloc (h : Heap α) (contents : List α) : Heap α × ℕ :=
  (⟨h.arrays ++ [contents]⟩, h.arrays.length)

/-- Element `i` of array `arr`. -/
def read (zero : α) (h : Heap α) (arr i : ℕ) : α := (h.arrays.getD arr []).getD i zero

/-- Store `v` into element `i` of array `arr`. -/
def write (h : Heap α) (arr i : ℕ) (v : α) : Heap α :=
  ⟨h.arrays.set arr ((h.arrays.getD arr []).set i v)⟩

/-- `make([]T, len, cap)`: a fresh zeroed array of `cap` elements. -/
def make (zero : α) (h : Heap α) (len cap : ℕ) : Heap α × Slice :=
  let (h, arr) := h.alloc (List.replicate cap zero)
  (h, { arr := arr, off := 0, len := len, cap := cap })

/-- A slice literal `[]T{...}`. -/
def literal (h : Heap α) (elems : List α) : Heap α × Slice :=
  let (h, arr) := h.alloc elems
  (h, { arr := arr, off := 0, len := elems.length, cap := elems.length })

/-- The elements a slice shows. -/
def elems (zero : α) (h : Heap α) (s : Slice) : List α :=
  (List.range s.len).map fun i => h.read zero s.arr (s.off + i)

/-- The index expression `s[i]` read. -/
def get (zero : α) (h : Heap α) (s : Slice) (i : ℤ) : Except Panic α := do
  let i ← checkIndex i s.len
  pure (h.read zero s.arr (s.off + i))

/-- The assignment `s[i] = v`. -/
def set (h : Heap α) (s : Slice) (i : ℤ) (v : α) : Except Panic (Heap α) := do
  let i ← checkIndex i s.len
  pure (h.write s.arr (s.off + i) v)

/-- `append(s, vs...)`: in place when the capacity suffices, else into a fresh array whose
capacity the runtime picks (at least the needed length). -/
def append (rt : Runtime) (zero : α) (h : Heap α) (s : Slice) (vs : List α) : Heap α × Slice :=
  let needed := s.len + vs.length
  if needed ≤ s.cap then
    let h := (List.range vs.length).foldl
      (fun h j => h.write s.arr (s.off + s.len + j) (vs.getD j zero)) h
    (h, { s with len := needed })
  else
    let cap := max (rt.growCap s.cap needed) needed
    let contents := h.elems zero s ++ vs ++ List.replicate (cap - needed) zero
    let (h, arr) := h.alloc contents
    (h, { arr := arr, off := 0, len := needed, cap := cap })

/-- `copy(dst, src)` between slices: the first `min(len(dst), len(src))` elements. -/
def copy (zero : α) (h : Heap α) (dst src : Slice) : Heap α :=
  let vs := h.elems zero src
  (List.range (min dst.len src.len)).foldl
    (fun h j => h.write dst.arr (dst.off + j) (vs.getD j zero)) h

end Heap

namespace Slice

/-- The nil slice. -/
def nil : Slice := { arr := 0, off := 0, len := 0, cap := 0 }

/-- The slice expression `s[lo:hi]`; the bounds are checked against the capacity. -/
def reslice (s : Slice) (lo hi : ℤ) : Except Panic Slice :=
  if ¬ (0 ≤ hi ∧ hi ≤ s.cap) then .error (.sliceBoundsOutOfRange hi s.cap)
  else if ¬ (0 ≤ lo ∧ lo ≤ hi) then .error (.sliceBoundsOutOfRange lo hi)
  else .ok { arr := s.arr, off := s.off + lo.toNat, len := (hi - lo).toNat,
             cap := s.cap - lo.toNat }

/-- The full slice expression `s[lo:hi:max]`. -/
def reslice3 (s : Slice) (lo hi max : ℤ) : Except Panic Slice :=
  if ¬ (0 ≤ max ∧ max ≤ s.cap) then .error (.sliceBoundsOutOfRange max s.cap)
  else if ¬ (0 ≤ hi ∧ hi ≤ max) then .error (.sliceBoundsOutOfRange hi max)
  else if ¬ (0 ≤ lo ∧ lo ≤ hi) then .error (.sliceBoundsOutOfRange lo hi)
  else .ok { arr := s.arr, off := s.off + lo.toNat, len := (hi - lo).toNat,
             cap := (max - lo).toNat }

/-- The address `&s[i]` of an element, as a value for printing. -/
def addressOf (s : Slice) (i : ℕ) : Value := .address ("array" ++ toString s.arr) (s.off + i)

end Slice

/-- A fixed-size array value `[n]T`: the index expression `a[i]` read. -/
def arrayGet {α : Type} (zero : α) (a : List α) (i : ℤ) : Except Panic α := do
  let i ← checkIndex i a.length
  pure (a.getD i zero)

/-- The assignment `a[i] = v` on an array variable. -/
def arraySet {α : Type} (a : List α) (i : ℤ) (v : α) : Except Panic (List α) := do
  let i ← checkIndex i a.length
  pure (a.set i v)

/-- A slice of strings boxed for printing. -/
def stringsValue (xs : List String) : Value := .slice (xs.map .string)

/-! ## slices.go -/

/-- `inspectSlice` exposes the slice header for review. -/
def inspectSlice (h : Heap String) (slice : Slice) : Go Unit := do
  fmtPrintf "Length[%d] Capacity[%d]\n" [.int slice.len, .int slice.cap]
  for i in List.range slice.len do
    let s := h.read "" slice.arr (slice.off + i)
    let _ ← Go.lift (checkIndex i slice.len)
    fmtPrintf "[%d] %p %s\n" [.int i, slice.addressOf i, .string s]

/-- `type sliceUser struct`. -/
structure sliceUser where
  id : ℤ
  name : String
  likes : ℤ
  deriving DecidableEq, Repr

/-- The zero value `sliceUser{}`. -/
def sliceUser.zero : sliceUser := { id := 0, name := "", likes := 0 }

/-- A `sliceUser` boxed for printing. -/
def sliceUser.toValue (u : sliceUser) : Value :=
  .named "sliceUser" (.struct [("id", .int u.id), ("name", .string u.name), ("likes", .int u.likes)])

/-- `SlicesExample1`: the capacity of a slice is not available for use. -/
def SlicesExample1 : Go Unit := do
  let (h, fruits) := Heap.make "" Heap.empty 5 5
  let h ← Go.lift (h.set fruits 0 "Apple")
  let h ← Go.lift (h.set fruits 1 "Orange")
  let h ← Go.lift (h.set fruits 2 "Banana")
  let h ← Go.lift (h.set fruits 3 "Grape")
  let h ← Go.lift (h.set fruits 4 "Plum")
  let h ← Go.lift (h.set fruits 5 "Runtime error")
  fmtPrintln [stringsValue (h.elems "" fruits)]

/-- `SlicesExample2`: length, capacity and underlying array of a slice. -/
def SlicesExample2 : Go Unit := do
  let (h, fruits) := Heap.make "" Heap.empty 5 8
  let h ← Go.lift (h.set fruits 0 "Apple")
  let h ← Go.lift (h.set fruits 1 "Orange")
  let h ← Go.lift (h.set fruits 2 "Banana")
  let h ← Go.lift (h.set fruits 3 "Grape")
  let h ← Go.lift (h.set fruits 4 "Plum")
  inspectSlice h fruits

/-- `SlicesExample3`: slices of slices are views of one underlying array. -/
def SlicesExample3 : Go Unit := do
  let (h, slice1) := Heap.make "" Heap.empty 5 8
  let h ← Go.lift (h.set slice1 0 "Apple")
  let h ← Go.lift (h.set slice1 1 "Orange")
  let h ← Go.lift (h.set slice1 2 "Banana")
  let h ← Go.lift (h.set slice1 3 "Grape")
  let h ← Go.lift (h.set slice1 4 "Plum")
  inspectSlice h slice1
  let slice2 ← Go.lift (slice1.reslice 2 4)
  inspectSlice h slice2
  fmtPrintln [.string "\n*************************"]
  let h ← Go.lift (h.set slice2 0 "CHANGED")
  inspectSlice h slice1
  inspectSlice h slice2
  fmtPrintln [.string "\n*************************"]
  let (h, slice3) := Heap.make "" h slice1.len slice1.len
  let h := h.copy "" slice3 slice1
  inspectSlice h slice3

/-- The body of `SlicesExample4` with the values `records` taken by the loop variable of
`for record := 1; record <= 1e5; record++`. -/
def SlicesExample4.run (rt : Runtime) (records : List ℕ) : Go Unit := do
  let mut h : Heap String := Heap.empty
  let mut data : Slice := Slice.nil
  let mut lastCap : ℤ := data.cap
  for record in records do
    let value := "Rec: " ++ toString record
    (h, data) := h.append rt "" data [value]
    if lastCap ≠ data.cap then
      let capChg := Float64.mul
        (Float64.div (Float64.ofInt (wrapInt64 (data.cap - lastCap))) (Float64.ofInt lastCap))
        (Float64.ofRat 100)
      lastCap := data.cap
      let _ ← Go.lift (checkIndex 0 data.len)
      fmtPrintf "Addr[%p]\tIndex[%d]\t\tCap[%d - %2.f%%]\n"
        [data.addressOf 0, .int record, .int data.cap, .float64 capChg]

/-- `SlicesExample4`: `append` grows the capacity of the underlying array. -/
def SlicesExample4 (rt : Runtime) : Go Unit :=
  SlicesExample4.run rt (List.range' 1 100000)

/-- `SlicesExample5`: appending while holding a reference to an element. -/
def SlicesExample5 (rt : Runtime) : Go Unit := do
  let (h, users) := Heap.make sliceUser.zero Heap.empty 3 3
  let i ← Go.lift (checkIndex 1 users.len)
  let shareUser : ℕ × ℕ := (users.arr, users.off + i)
  let u := h.read sliceUser.zero shareUser.1 shareUser.2
  let h := h.write shareUser.1 shareUser.2 { u with likes := wrapInt64 (u.likes + 1) }
  for i in List.range users.len do
    let u ← Go.lift (h.get sliceUser.zero users i)
    fmtPrintf "User: %d Likes: %d\n" [.int i, .int u.likes]
  let (h, users) := h.append rt sliceUser.zero users [sliceUser.zero]
  let u := h.read sliceUser.zero shareUser.1 shareUser.2
  let h := h.write shareUser.1 shareUser.2 { u with likes := wrapInt64 (u.likes + 1) }
  fmtPrintln [.string "*************************"]
  for i in List.range users.len do
    let u ← Go.lift (h.get sliceUser.zero users i)
    fmtPrintf "User: %d Likes: %d\n" [.int i, .int u.likes]

/-- `utf8.RuneLen`: the number of bytes of the UTF-8 encoding of a rune, or -1 when the
rune is not a valid value to encode. -/
def utf8RuneLen (r : ℤ) : ℤ :=
  if r < 0 then -1
  else if r ≤ 0x7F then 1
  else if r ≤ 0x7FF then 2
  else if 0xD800 ≤ r ∧ r ≤ 0xDFFF then -1
  else if r ≤ 0xFFFF then 3
  else if r ≤ 0x10FFFF then 4
  else -1

/-- The bytes of a string (its UTF-8 encoding). -/
def stringBytes (s : String) : List ℤ :=
  (s.data.map fun c => (String.utf8EncodeChar c).map fun b => (b.toNat : ℤ)).flatten

/-- The pairs `i, r` of a `range` over a string: each rune with the index of its first
byte. -/
def stringRange (s : String) : List (ℕ × Char) :=
  (s.data.foldl (fun (acc : List (ℕ × Char) × ℕ) c => (acc.1 ++ [(acc.2, c)], acc.2 + c.utf8Size))
    ([], 0)).1

/-- The slice expression `x[lo:hi]` on a string or an array, by the elements it shows. -/
def subSequence {α : Type} (xs : List α) (lo hi : ℤ) : Except Panic (List α) :=
  if ¬ (0 ≤ hi ∧ hi ≤ xs.length) then .error (.sliceBoundsOutOfRange hi xs.length)
  else if ¬ (0 ≤ lo ∧ lo ≤ hi) then .error (.sliceBoundsOutOfRange lo hi)
  else .ok ((xs.drop lo.toNat).take (hi - lo).toNat)

/-- `copy(dst[:], src)` into an array variable: the first `min(len(dst), len(src))`
elements are overwritten. -/
def copyInto {α : Type} (dst src : List α) : List α :=
  src.take dst.length ++ dst.drop (min dst.length src.length)

/-- `SlicesExample6`: strings are UTF-8 encoded byte sequences. -/
def SlicesExample6 : Go Unit := do
  let s := "世界 means world"
  let mut buf : List ℤ := List.replicate 4 0
  for (i, r) in stringRange s do
    let rl := utf8RuneLen r.toNat
    let si : ℤ := i + rl
    let view ← Go.lift (subSequence buf 0 buf.length)
    let bytes ← Go.lift (subSequence (stringBytes s) i si)
    buf := copyInto view bytes
    let shown ← Go.lift (subSequence buf 0 rl)
    fmtPrintf "%2d: %q; codepoint: %#6x; encoded bytes: %#v\n"
      [.int i, .int32 r.toNat, .int32 r.toNat, .slice (shown.map .uint8)]

/-- The closure `display` of `SlicesExample7`. -/
def SlicesExample7.display (h : Heap sliceUser) (users : Slice) : Go Unit := do
  fmtPrintln [.string "**************************"]
  for i in List.range users.len do
    let u := h.read sliceUser.zero users.arr (users.off + i)
    fmtPrintf "%+v\n" [u.toValue]

/-- The closure `change` of `SlicesExample7`. -/
def SlicesExample7.change (h : Heap sliceUser) (users : Slice) : Go (Heap sliceUser) :=
  Go.lift (h.set users 1 { id := 99, name := "Same Backing Array", likes := 0 })

/-- `SlicesExample7`: variadic functions. -/
def SlicesExample7 : Go Unit := do
  let h : Heap sliceUser := Heap.empty
  let u1 : sliceUser := { id := 1432, name := "Betty", likes := 0 }
  let u2 : sliceUser := { id := 4367, name := "Janet", likes := 0 }
  let (h, args) := h.literal [u1, u2]
  SlicesExample7.display h args
  let (h, u3) := h.literal [{ id := 24, name := "Bill", likes := 0 },
    { id := 32, name := "Joan", likes := 0 }]
  SlicesExample7.display h u3
  let h ← SlicesExample7.change h u3
  fmtPrintln [.string "**************************"]
  for i in List.range u3.len do
    let u := h.read sliceUser.zero u3.arr (u3.off + i)
    fmtPrintf "%+v\n" [u.toValue]

/-- `SlicesExample8`: value and pointer semantics of `for range`. -/
def SlicesExample8 : Go Unit := do
  let (h, friends0) := Heap.literal Heap.empty ["Annie", "Betty", "Charley", "Doug", "Edward"]
  let mut friends := friends0
  for i in List.range friends0.len do
    let v := h.read "" friends0.arr (friends0.off + i)
    friends ← Go.lift (friends.reslice 0 2)
    fmtPrintf "v[%s]\n" [.string v]
  fmtPrint [.string "\n\n"]
  let (h, friends1) := h.literal ["Annie", "Betty", "Charley", "Doug", "Edward"]
  friends := friends1
  for i in List.range friends1.len do
    friends ← Go.lift (friends.reslice 0 2)
    let v ← Go.lift (h.get "" friends i)
    fmtPrintf "v[%s]\n" [.string v]

/-- `SlicesAdvancedExample1`: the third index of a slice expression. -/
def SlicesAdvancedExample1 (rt : Runtime) : Go Unit := do
  let (h, slice) := Heap.literal Heap.empty ["Apple", "Orange", "Banana", "Grape", "Plum"]
  inspectSlice h slice
  let takeOne ← Go.lift (slice.reslice 2 3)
  inspectSlice h takeOne
  let takeOneCapOne ← Go.lift (slice.reslice3 2 3 3)
  inspectSlice h takeOneCapOne
  let (h, takeOneCapOne) := h.append rt "" takeOneCapOne ["Kiwi"]
  inspectSlice h takeOneCapOne

/-- `SlicesExercise1`. -/
def SlicesExercise1 (rt : Runtime) : Go Unit := do
  let hn : Heap ℤ := Heap.empty
  let numbers := Slice.nil
  let (hn, lit) := hn.literal [1, 2, 3, 4, 5]
  let (hn, numbers) := hn.append rt 0 numbers (hn.elems 0 lit)
  for i in List.range numbers.len do
    let n := hn.read 0 numbers.arr (numbers.off + i)
    fmtPrintf "%d: %v\n" [.int i, .int n]
  fmtPrint [.string "\n\n"]
  let (h, names) := Heap.literal Heap.empty ["James", "Jack", "Joe", "Mark"]
  for i in List.range names.len do
    let n := h.read "" names.arr (names.off + i)
    fmtPrintf "%d: %v\n" [.int i, .string n]
  fmtPrint [.string "\n\n"]
  let coolGuys ← Go.lift (names.reslice3 1 3 3)
  inspectSlice h coolGuys
  for i in List.range coolGuys.len do
    let n := h.read "" coolGuys.arr (coolGuys.off + i)
    fmtPrintf "Cool %d: %v\n" [.int i, .string n]

/-! ## datastructures/arrays.go -/

/-- `ArraysExample1`: declare and iterate over arrays. -/
def ArraysExample1 : Go Unit := do
  let fruits : List String := List.replicate 5 ""
  let fruits ← Go.lift (arraySet fruits 0 "Apple")
  let fruits ← Go.lift (arraySet fruits 1 "Orange")
  let fruits ← Go.lift (arraySet fruits 2 "Banana")
  let fruits ← Go.lift (arraySet fruits 3 "Grape")
  let fruits ← Go.lift (arraySet fruits 4 "Plum")
  for (i, fruit) in fruits.enum do
    fmtPrintln [.int i, .string fruit]
  let numbers : List ℤ := [10, 20, 30, 40]
  for i in List.range numbers.length do
    let n ← Go.lift (arrayGet 0 numbers i)
    fmtPrintln [.int i, .int n]

/-- `ArraysExample2`: arrays of different sizes are different types. -/
def ArraysExample2 : Go Unit := do
  let five : List ℤ := List.replicate 5 0
  let four : List ℤ := [10, 20, 30, 40]
  fmtPrintln [.array (four.map .int)]
  fmtPrintln [.array (five.map .int)]

/-- `ArraysExample3`: `for range` over an array and the addresses of its elements. -/
def ArraysExample3 : Go Unit := do
  let friends : List String := ["Annie", "Betty", "Charley", "Doug", "Edward"]
  for (i, v) in friends.enum do
    let _ ← Go.lift (checkIndex i friends.length)
    fmtPrintf "Value[%s]\tAddress[%p] IndexAddr[%p]\n"
      [.string v, .address "v" 0, .address "friends" i]

/-- `ArraysExample4`: value and pointer semantics of `for range` over an array. -/
def ArraysExample4 : Go Unit := do
  let mut friends : List String := ["Annie", "Betty", "Charley", "Doug", "Edward"]
  let b ← Go.lift (arrayGet "" friends 1)
  fmtPrintf "Bfr[%s] : " [.string b]
  for i in List.range friends.length do
    friends ← Go.lift (arraySet friends 1 "Jack")
    if i = 1 then
      let a ← Go.lift (arrayGet "" friends 1)
      fmtPrintf "Aft[%s]\n" [.string a]
  friends := ["Annie", "Betty", "Charley", "Doug", "Edward"]
  let b ← Go.lift (arrayGet "" friends 1)
  fmtPrintf "Bfr[%s] : " [.string b]
  let copied := friends
  for (i, v) in copied.enum do
    friends ← Go.lift (arraySet friends 1 "Jack")
    if i = 1 then
      fmtPrintf "v[%s]\n" [.string v]
  friends := ["Annie", "Betty", "Charley", "Doug", "Edward"]
  let b ← Go.lift (arrayGet "" friends 1)
  fmtPrintf "Bfr[%s] : " [.string b]
  for i in List.range friends.length do
    let v := friends.getD i ""
    friends ← Go.lift (arraySet friends 1 "Jack")
    if i = 1 then
      fmtPrintf "v[%s]\n" [.string v]

/-- `ArraysExercise1`. -/
def ArraysExercise1 : Go Unit := do
  let mut colors : List String := List.replicate 5 ""
  let preColors : List String := ["red", "white", "blue", "black", "green"]
  colors := preColors
  for (i, v) in colors.enum do
    let _ ← Go.lift (checkIndex i colors.length)
    fmtPrintf "Value: [%s]\t\tAddress: [%v]\t\tIndex Address: [%v]\n"
      [.string v, .address "v" 0, .address "colors" i]

/-! ## maps.go -/

namespace GoMap

variable {κ ν : Type} [DecidableEq κ]

/-- The read `m[k]`: the zero value when the key is absent. -/
def get (zero : ν) (m : GoMap κ ν) (k : κ) : ν := (m.get? k).getD zero

/-- A map literal `map[K]V{...}`. -/
def literal (es : List (κ × ν)) : GoMap κ ν :=
  some (es.foldl (fun l e => insertEntry e.1 e.2 l) [])

/-- The keys held by a map. -/
def keys (m : GoMap κ ν) : List κ := (entries m).map fun e => e.1

end GoMap

/-- `type mapUser struct`. -/
structure mapUser where
  name : String
  surname : String
  deriving DecidableEq, Repr

/-- The zero value `mapUser{}`. -/
def mapUser.zero : mapUser := { name := "", surname := "" }

/-- A `mapUser` boxed for printing. -/
def mapUser.toValue (u : mapUser) : Value :=
  .named "mapUser" (.struct [("name", .string u.name), ("surname", .string u.surname)])

/-- `type mapPlayer struct`. -/
structure mapPlayer where
  name : String
  score : ℤ
  deriving DecidableEq, Repr

/-- The zero value `mapPlayer{}`. -/
def mapPlayer.zero : mapPlayer := { name := "", score := 0 }

/-- `MapsExample1`: initialize a map, write to it, read and delete from it. -/
def MapsExample1 : Go Unit := do
  let users : GoMap String mapUser := GoMap.make
  let users ← Go.lift (users.set "Roy" { name := "Rob", surname := "Roy" })
  let users ← Go.lift (users.set "Ford" { name := "Henry", surname := "Ford" })
  let users ← Go.lift (users.set "Mouse" { name := "Mickey", surname := "Mouse" })
  let users ← Go.lift (users.set "Jackson" { name := "Michael", surname := "Jackson" })
  let mouse := users.get mapUser.zero "Mouse"
  fmtPrintf "%+v\n" [mouse.toValue]
  let users ← Go.lift (users.set "Mouse" { name := "Jerry", surname := "Mouse" })
  fmtPrintf "%+v\n" [(users.get mapUser.zero "Mouse").toValue]
  let users := users.delete "Roy"
  fmtPrintln [.int users.len]
  let _users := users.delete "Roy"
  fmtPrintln [.string "Goodbye."]

/-- `MapsExample2`: reading an absent key. -/
def MapsExample2 : Go Unit := do
  let scores : GoMap String ℤ := GoMap.make
  let score := scores.get 0 "anna"
  fmtPrintln [.string "Score:", .int score]
  let (score, ok) := ((scores.get? "anna").getD 0, (scores.get? "anna").isSome)
  fmtPrintln [.string "Score:", .int score, .string "Present:", .bool ok]
  let scores ← Go.lift (scores.set "anna" (wrapInt64 (scores.get 0 "anna" + 1)))
  let scores ← match scores.get? "anna" with
    | some n => Go.lift (scores.set "anna" (wrapInt64 (n + 1)))
    | none => Go.lift (scores.set "anna" 1)
  let (score, ok) := ((scores.get? "anna").getD 0, (scores.get? "anna").isSome)
  fmtPrintln [.string "Score:", .int score, .string "Present:", .bool ok]

/-- `MapsExample3`: a map keyed by strings, iterated while empty. -/
def MapsExample3 (rt : Runtime) : Go Unit := do
  let u : GoMap String ℤ := GoMap.make
  for key in rt.mapOrder 0 u.keys do
    let value := u.get 0 key
    fmtPrintln [.string key, .int value]

/-- The map literal of `MapsExample4` and `MapsExample5`. -/
def mapsUsersLiteral : GoMap String mapUser :=
  GoMap.literal [("Roy", { name := "Rob", surname := "Roy" }),
    ("Ford", { name := "Henry", surname := "Ford" }),
    ("Mouse", { name := "Mickey", surname := "Mouse" }),
    ("Jackson", { name := "Michael", surname := "Jackson" })]

/-- `MapsExample4`: iterating over a map is random. -/
def MapsExample4 (rt : Runtime) : Go Unit := do
  let users := mapsUsersLiteral
  for key in rt.mapOrder 0 users.keys do
    let value := users.get mapUser.zero key
    fmtPrintln [.string key, value.toValue]
  fmtPrintln []
  for key in rt.mapOrder 1 users.keys do
    fmtPrintln [.string key]

/-- `sort.Strings`: sort a slice of strings in increasing order, in place. -/
def sortStrings (h : Heap String) (s : Slice) : Heap String :=
  let sorted := (h.elems "" s).mergeSort fun a b => decide (a ≤ b)
  (List.range s.len).foldl (fun h j => h.write s.arr (s.off + j) (sorted.getD j "")) h

/-- `MapsExample5`: walk through a map by alphabetical key order. -/
def MapsExample5 (rt : Runtime) : Go Unit := do
  let users := mapsUsersLiteral
  let mut h : Heap String := Heap.empty
  let mut keys : Slice := Slice.nil
  for key in rt.mapOrder 0 users.keys do
    (h, keys) := h.append rt "" keys [key]
  h := sortStrings h keys
  for i in List.range keys.len do
    let key := h.read "" keys.arr (keys.off + i)
    fmtPrintln [.string key, (users.get mapUser.zero key).toValue]

/-- `MapsExample6`: map elements are not addressable. -/
def MapsExample6 : Go Unit := do
  let players : GoMap String mapPlayer :=
    GoMap.literal [("anna", { name := "Anna", score := 42 }),
      ("jacob", { name := "Jacob", score := 21 })]
  fmtPrintf "Score: %d\n" [.int (players.get mapPlayer.zero "anna").score]
  let player := players.get mapPlayer.zero "anna"
  let player := { player with score := wrapInt64 (player.score + 1) }
  let players ← Go.lift (players.set "anna" player)
  fmtPrintf "Score: %d\n" [.int (players.get mapPlayer.zero "anna").score]

/-- The closure `double` of `MapsExample7`; the map after the call is returned. -/
def MapsExample7.double (scores : GoMap String ℤ) (player : String) : Go (GoMap String ℤ) :=
  Go.lift (scores.set player (wrapInt64 (scores.get 0 player * 2)))

/-- `MapsExample7`: maps are reference types. -/
def MapsExample7 : Go Unit := do
  let scores : GoMap String ℤ := GoMap.literal [("anna", 21), ("jacob", 12)]
  let scores ← MapsExample7.double scores "anna"
  fmtPrintln [.string "Score:", .int (scores.get 0 "anna")]

/-- `MapsExercise1`. -/
def MapsExercise1 (rt : Runtime) : Go Unit := do
  let ages : GoMap String ℤ := GoMap.make
  let ages ← Go.lift (ages.set "John" 45)
  let ages ← Go.lift (ages.set "Jame" 82)
  let ages ← Go.lift (ages.set "Joe" 51)
  for key in rt.mapOrder 0 ages.keys do
    let value := ages.get 0 key
    fmtPrintf "Key: %s, Value: %d\n" [.string key, .int value]

/-! ## pointers.go -/

/-- `type person struct` of pointers.go. -/
structure pointerPerson where
  name : String
  email : String
  logins : ℤ
  deriving DecidableEq, Repr

/-- A `person` boxed for printing. -/
def pointerPerson.toValue (p : pointerPerson) : Value :=
  .named "person"
    (.struct [("name", .string p.name), ("email", .string p.email), ("logins", .int p.logins)])

/-- `const size = 10`: number of elements to grow each stack frame. -/
def size : ℕ := 10

/-- The closure `increment` of `PointersExample1`: it works on its own copy of the
argument. -/
def PointersExample1.increment (inc : ℤ) : Go Unit := do
  let inc := wrapInt64 (inc + 1)
  builtinPrintln [.string "inc:\tValue Of[", .int inc, .string "]\tAddr Of[",
    .address "inc" 0, .string "]"]

/-- `PointersExample1`: pass by value. -/
def PointersExample1 : Go Unit := do
  let count : ℤ := 10
  builtinPrintln [.string "count:\tValue Of[", .int count, .string "]\tAddr Of[",
    .address "count" 0, .string "]"]
  PointersExample1.increment count
  builtinPrintln [.string "count:\tValue Of[", .int count, .string "]\tAddr Of[",
    .address "count" 0, .string "]"]

/-- The closure `increment` of `PointersExample2`, called with the address of `count`:
the value pointed to after the call is returned. -/
def PointersExample2.increment (count : ℤ) : Go ℤ := do
  let count := wrapInt64 (count + 1)
  builtinPrintln [.string "inc:\tValue Of[", .address "count" 0, .string "]\tAddr Of[",
    .address "inc" 0, .string "]\tValue Points To[", .int count, .string "]"]
  pure count

/-- `PointersExample2`: sharing data with a pointer. -/
def PointersExample2 : Go Unit := do
  let count : ℤ := 10
  builtinPrintln [.string "count:\tValue Of[", .int count, .string "]\t\tAddr Of[",
    .address "count" 0, .string "]"]
  let count ← PointersExample2.increment count
  builtinPrintln [.string "count:\tValue Of[", .int count, .string "]\t\tAddr Of[",
    .address "count" 0, .string "]"]

/-- The closure `increment` of `PointersExample3`, called with the address of the
`logins` field. -/
def PointersExample3.increment (logins : ℤ) : Go ℤ := do
  let logins := wrapInt64 (logins + 1)
  fmtPrintf "&logins[%p] logins[%p] *logins[%d]\n\n"
    [.address "logins" 0, .address "bill.logins" 0, .int logins]
  pure logins

/-- The closure `display` of `PointersExample3`. -/
def PointersExample3.display (u : pointerPerson) : Go Unit := do
  fmtPrintf "%p\t%+v\n" [.address "bill" 0, u.toValue]
  fmtPrintf "Name: %q Email: %q Logins: %d\n\n" [.string u.name, .string u.email, .int u.logins]

/-- `PointersExample3`: sharing a struct and one of its fields. -/
def PointersExample3 : Go Unit := do
  let bill : pointerPerson := { name := "Bill", email := "bill@ardanlabs.com", logins := 0 }
  PointersExample3.display bill
  let logins ← PointersExample3.increment bill.logins
  let bill := { bill with logins := logins }
  PointersExample3.display bill

/-- `PointersExample4`: escape analysis. -/
def PointersExample4 : Go Unit := do
  let p : pointerPerson := { name := "Bill", email := "bill@ardanlabs.com", logins := 0 }
  builtinPrintln [.string "V1", .address "p(V1)" 0]
  let _p1 := p
  let p : pointerPerson := { name := "Bill", email := "bill@ardanlabs.com", logins := 0 }
  builtinPrintln [.string "V2", .address "p(V2)" 0]
  let _p2 := p
  builtinPrintln [.string "p1", .address "p1" 0, .string "p2", .address "p(V2)" 0]

/-- `stackCopy` recursively runs increasing the size of the stack.  `depth` bounds the
number of nested calls the embedding follows. -/
def stackCopy : (depth : ℕ) → (s : String) → (c : ℤ) → (a : List ℤ) → Go Unit
  | 0, _, _, _ => Go.panic .stackOverflow
  | depth + 1, s, c, a => do
    builtinPrintln [.int c, .address "s" 0, .string s]
    let c := wrapInt64 (c + 1)
    if c = 10 then
      pure ()
    else
      stackCopy depth s c a

/-- `PointersExample5`: how stacks grow. -/
def PointersExample5 : Go Unit := do
  let s := "HELLO"
  stackCopy 1000 s 0 (List.replicate size 0)

/-- `PointersExercise1`: the body holds comments only. -/
def PointersExercise1 : Go Unit := pure ()

/-- `PointersExercise2`: the body holds comments only. -/
def PointersExercise2 : Go Unit := pure ()

/-! ## syntax/variables.go -/

/-- Rounding onto binary32. -/
def Float32.ofRat (q : ℚ) : FloatVal := FloatVal.ofRat 24 (-149) 127 q

/-- `math.Pi`. -/
def mathPi : ℚ := 3.14159265358979323846264338327950288419716939937510582097494459

/-- `VariableExample1`: declaring variables. -/
def VariableExample1 : Go Unit := do
  let a : ℤ := 0
  let b : String := ""
  let c : Float64 := .finite 0
  let d : Bool := false
  fmtPrintf "var a int \t %T [%v]\n" [.int a, .int a]
  fmtPrintf "var b string \t %T [%v]\n" [.string b, .string b]
  fmtPrintf "var c float64 \t %T [%v]\n" [.float64 c, .float64 c]
  fmtPrintf "var d bool \t %T [%v]\n\n" [.bool d, .bool d]
  let aa : ℤ := 10
  let bb := "hello"
  let cc := Float64.ofRat 3.14159
  let dd := true
  fmtPrintf "aa := 10 \t %T [%v]\n" [.int aa, .int aa]
  fmtPrintf "bb := \"hello\" \t %T [%v]\n" [.string bb, .string bb]
  fmtPrintf "cc := 3.14159 \t %T [%v]\n" [.float64 cc, .float64 cc]
  fmtPrintf "dd := true \t %T [%v]\n\n" [.bool dd, .bool dd]
  let aaa : ℤ := 10
  fmtPrintf "aaa := int32(10) %T [%v]\n" [.int32 aaa, .int32 aaa]

/-- `VariableExercise1`. -/
def VariableExercise1 : Go Unit := do
  let a : ℤ := 0
  let b : String := ""
  let c : Bool := false
  fmtPrintf "var a \t %T [%v]\n" [.int a, .int a]
  fmtPrintf "var b \t %T [%v]\n" [.string b, .string b]
  fmtPrintf "var c \t %T [%v]\n\n" [.bool c, .bool c]
  let aa : ℤ := 21
  let bb := "this is it"
  let cc := false
  fmtPrintf "aa \t %T [%v]\n" [.int aa, .int aa]
  fmtPrintf "bb \t %T [%v]\n" [.string bb, .string bb]
  fmtPrintf "cc \t %T [%v]\n\n" [.bool cc, .bool cc]
  let ddd := Float32.ofRat mathPi
  fmtPrintf "ddd \t %T [%v]\n" [.float32 ddd, .float32 ddd]

/-! ## syntax/struct-type.go -/

/-- `type example struct`. -/
structure example_ where
  flag : Bool
  counter : ℤ
  pi : FloatVal
  deriving DecidableEq

/-- The fields of an `example` (or of the anonymous struct of the same shape) boxed for
printing. -/
def example_.fields (e : example_) : Value :=
  .struct [("flag", .bool e.flag), ("counter", .int16 e.counter), ("pi", .float32 e.pi)]

/-- `type user struct` of struct-type.go. -/
structure structUser where
  firstNane : String
  lastName : String
  age : ℤ
  deriving DecidableEq, Repr

/-- The fields of a `user` (or of the anonymous struct of the same shape) boxed for
printing. -/
def structUser.fields (u : structUser) : Value :=
  .struct [("firstNane", .string u.firstNane), ("lastName", .string u.lastName),
    ("age", .int16 u.age)]

/-- `StructTypeExample1`: declare and initialize struct types. -/
def StructTypeExample1 : Go Unit := do
  let e1 : example_ := { flag := false, counter := 0, pi := .finite 0 }
  fmtPrintf "%+v\n" [.named "example" e1.fields]
  let e2 : example_ := { flag := true, counter := 10, pi := Float32.ofRat 3.141592 }
  fmtPrintln [.string "Flag", .bool e2.flag]
  fmtPrintln [.string "Counter", .int16 e2.counter]
  fmtPrintln [.string "Pi", .float32 e2.pi]

/-- `StructTypeExample2`: anonymous struct types. -/
def StructTypeExample2 : Go Unit := do
  let e1 : example_ := { flag := false, counter := 0, pi := .finite 0 }
  fmtPrintf "%+v\n" [e1.fields]
  let e2 : example_ := { flag := true, counter := 10, pi := Float32.ofRat 3.141592 }
  fmtPrintf "%+v\n" [e2.fields]
  fmtPrintln [.string "Flag", .bool e2.flag]
  fmtPrintln [.string "Counter", .int16 e2.counter]
  fmtPrintln [.string "Pi", .float32 e2.pi]

/-- `StructTypeExample3`: assigning an unnamed struct value to a named struct type. -/
def StructTypeExample3 : Go Unit := do
  let e : example_ := { flag := true, counter := 10, pi := Float32.ofRat 3.141592 }
  let mut ex : example_ := { flag := false, counter := 0, pi := .finite 0 }
  ex := e
  fmtPrintf "%+v\n" [.named "example" ex.fields]
  fmtPrintf "%+v\n" [e.fields]
  fmtPrintln [.string "Flag", .bool e.flag]
  fmtPrintln [.string "Counter", .int16 e.counter]
  fmtPrintln [.string "Pi", .float32 e.pi]

/-- `StructTypeExercise1`. -/
def StructTypeExercise1 : Go Unit := do
  let u : structUser := { firstNane := "James", lastName := "Bond", age := 45 }
  fmtPrintf "%v\n" [.named "user" u.fields]
  fmtPrintf "%+v\n" [.named "user" u.fields]
  let ua : structUser := { firstNane := "Peter", lastName := "Parker", age := 35 }
  fmtPrintf "%v\n" [ua.fields]
  fmtPrintf "%+v\n" [ua.fields]

/-! ## syntax/constants.go -/

/-- `ConstantsExample1`: constants and their kinds. -/
def ConstantsExample1 : Go Unit := do
  let answer := Float64.ofRat (3 * 0.333)
  fmtPrintln [.float64 answer]

/-- `ConstantsExample2`: constants have a parallel type system. -/
def ConstantsExample2 : Go Unit := do
  fmtPrintln [.string "Will Compile"]

/-- `ConstantsExample3`: how iota works. -/
def ConstantsExample3 : Go Unit := do
  let (A1, B1, C1) : ℤ × ℤ × ℤ := (0, 1, 2)
  fmtPrintln [.string "1:", .int A1, .int B1, .int C1]
  let (A2, B2, C2) : ℤ × ℤ × ℤ := (0, 1, 2)
  fmtPrintln [.string "2:", .int A2, .int B2, .int C2]
  let (A3, B3, C3) : ℤ × ℤ × ℤ := (0 + 1, 1 + 1, 2 + 1)
  fmtPrintln [.string "3:", .int A3, .int B3, .int C3]
  let flags : List ℤ := (List.range 6).map fun iota => (1 : ℤ) * 2 ^ iota
  fmtPrintln (.string "Log:" :: flags.map .int)

/-- A `time.Time`, by its nanoseconds since the epoch, boxed for printing. -/
def timeValue (t : ℤ) : Value := .named "time.Time" (.int64 t)

/-- `ConstantsExample4`: literals, constants and variables under implicit conversion. -/
def ConstantsExample4 (rt : Runtime) : Go Unit := do
  let now := rt.now
  let literal := now + (-5)
  let timeout : ℤ := 5 * timeSecond
  let constant := now + (-timeout)
  let minusFive : ℤ := -5 * 1
  let variable_ := now + minusFive
  fmtPrintf "Now     : %v\n" [timeValue now]
  fmtPrintf "Literal : %v\n" [timeValue literal]
  fmtPrintf "Constant: %v\n" [timeValue constant]
  fmtPrintf "Variable: %v\n" [timeValue variable_]

/-- `ConstantsExercise1`. -/
def ConstantsExercise1 : Go Unit := do
  let server := "localhost"
  let port : ℤ := 8000
  fmtPrintf "%v:%d\n\n" [.string server, .int port]
  let peoplePerApple := Float64.ofRat (36 / 6.0)
  fmtPrintln [.float64 peoplePerApple]

/-! ## decoupling/methods.go -/

/-- `type user struct` of methods.go. -/
structure user where
  name : String
  email : String
  deriving DecidableEq, Repr

/-- `func (u user) notify()`. -/
def user.notify (u : user) : Go Unit :=
  fmtPrintf "Sending User Email To %s<%s>\n" [.string u.name, .string u.email]

/-- `func (u *user) changeEmail(email string)`: the user after the call. -/
def user.changeEmail (u : user) (email : String) : user := { u with email := email }

/-- `MethodsExample1`: declaring methods. -/
def MethodsExample1 : Go Unit := do
  let bill : user := { name := "Bill", email := "bill@email.com" }
  let bill := bill.changeEmail "bill@hotmail.com"
  bill.notify
  let joan : user := { name := "Joan", email := "joan@email.com" }
  let joan := joan.changeEmail "joan@hotmail.com"
  joan.notify
  let (hu, users) := Heap.literal Heap.empty
    [({ name := "ed", email := "ed@email.com" } : user),
     { name := "erick", email := "erick@email.com" }]
  for i in List.range users.len do
    let u := hu.read { name := "", email := "" } users.arr (users.off + i)
    let _u := u.changeEmail "it@wontmatter.com"
  let (h, keys) := Heap.make "" Heap.empty 10 10
  let mut h := h
  for i in List.range keys.len do
    h ← Go.lift (h.set keys i "key-gen")

/-- `type data struct`. -/
structure data where
  name : String
  age : ℤ
  deriving DecidableEq, Repr

/-- `func (d data) displayName()`. -/
def data.displayName (d : data) : Go Unit :=
  fmtPrintln [.string "My Name Is", .string d.name]

/-- `func (d *data) setAge(age int)`: the data after the call is returned. -/
def data.setAge (d : data) (age : ℤ) : Go data := do
  let d := { d with age := age }
  fmtPrintln [.string d.name, .string "Is Age", .int d.age]
  pure d

/-- `MethodsExample3`: function variables bound to methods. -/
def MethodsExample3 : Go Unit := do
  let d : data := { name := "Bill", age := 0 }
  fmtPrintln [.string "Proper Calls to Methods:"]
  d.displayName
  let d ← d.setAge 45
  fmtPrintln [.string "\nWhat the Compiler is Doing:"]
  data.displayName d
  let d ← data.setAge d 45
  fmtPrintln [.string "\nCall Value Receiver Methods with Variable:"]
  let f1 := data.displayName d
  f1
  let d := { d with name := "Joan" }
  f1
  fmtPrintln [.string "\nCall Pointer Receiver Method with Variable:"]
  let d ← d.setAge 45
  let d := { d with name := "Sammy" }
  let _d ← d.setAge 45

/-- `func event(message string)`: global events. -/
def event (message : String) : Go Unit := fmtPrintln [.string message]

/-- `func (d *data) event(message string)`. -/
def data.event (d : data) (message : String) : Go Unit :=
  fmtPrintln [.string d.name, .string message]

/-- `fireEvent1` uses an anonymous function type. -/
def fireEvent1 (f : String → Go Unit) : Go Unit := f "anonymous"

/-- `fireEvent2` uses the function type `handler`. -/
def fireEvent2 (h : String → Go Unit) : Go Unit := h "handler"

/-- `MethodsExample4`: function types. -/
def MethodsExample4 : Go Unit := do
  let d : data := { name := "Bill", age := 0 }
  fireEvent1 event
  fireEvent1 d.event
  fireEvent2 event
  fireEvent2 d.event
  let h1 := event
  let h2 := d.event
  fireEvent2 h1
  fireEvent2 h2
  fireEvent1 h1
  fireEvent1 h2

/-- `MethodsExercise1`: the body holds comments only. -/
def MethodsExercise1 : Go Unit := pure ()

/-! ## decoupling/interfaces.go -/

/-- `copy(dst, src)` from a string or a list of elements into a slice. -/
def Heap.copyFrom {α : Type} (zero : α) (h : Heap α) (dst : Slice) (src : List α) : Heap α :=
  (List.range (min dst.len src.length)).foldl
    (fun h j => h.write dst.arr (dst.off + j) (src.getD j zero)) h

/-- `func (file) read(b []byte) (int, error)`. -/
def file.read (h : Heap ℤ) (b : Slice) : (ℤ × GoError) × Heap ℤ :=
  let s := "<rss><channel><title>Going Go Programming</title></channel></rss>"
  let h := h.copyFrom 0 b (stringBytes s)
  (((stringBytes s).length, none), h)

/-- `func (pipe) read(b []byte) (int, error)`. -/
def pipe.read (h : Heap ℤ) (b : Slice) : (ℤ × GoError) × Heap ℤ :=
  let s := "\x7bname: \"bill\", title: \"developer\"\x7d"
  let h := h.copyFrom 0 b (stringBytes s)
  (((stringBytes s).length, none), h)

/-- The `reader` interface, by the types implementing it. -/
inductive reader
  | file (name : String)
  | pipe (name : String)

/-- Dynamic dispatch of `read`. -/
def reader.read : reader → Heap ℤ → Slice → (ℤ × GoError) × Heap ℤ
  | .file _, h, b => file.read h b
  | .pipe _, h, b => pipe.read h b

/-- `retrieveFile` can read from a file and process the data. -/
def retrieveFile (_f : String) : Go GoError := do
  let (h, data) := Heap.make 0 Heap.empty 100 100
  let ((len, err), h) := file.read h data
  match err with
  | some e => pure (some e)
  | none =>
    let shown ← Go.lift (data.reslice 0 len)
    fmtPrintln [.stringOfBytes (h.elems 0 shown)]
    pure none

/-- `retrievePipe` can read from a pipe and process the data. -/
def retrievePipe (_p : String) : Go GoError := do
  let (h, data) := Heap.make 0 Heap.empty 100 100
  let ((len, err), h) := pipe.read h data
  match err with
  | some e => pure (some e)
  | none =>
    let shown ← Go.lift (data.reslice 0 len)
    fmtPrintln [.stringOfBytes (h.elems 0 shown)]
    pure none

/-- `InterfacesExample0`: one retrieve function per concrete type. -/
def InterfacesExample0 : Go Unit := do
  let f := "data.json"
  let p := "cfg_service"
  let _ ← retrieveFile f
  let _ ← retrievePipe p

/-- `retrieve` can read any device and process the data. -/
def retrieve (r : reader) : Go GoError := do
  let (h, data) := Heap.make 0 Heap.empty 100 100
  let ((len, err), h) := r.read h data
  match err with
  | some e => pure (some e)
  | none =>
    let shown ← Go.lift (data.reslice 0 len)
    fmtPrintln [.stringOfBytes (h.elems 0 shown)]
    pure none

/-- `InterfacesExample1`: polymorphic behavior with interfaces. -/
def InterfacesExample1 : Go Unit := do
  let f := reader.file "data.json"
  let p := reader.pipe "cfg_service"
  let _ ← retrieve f
  let _ ← retrieve p

/-- `type person struct` of interfaces.go. -/
structure person where
  name : String
  email : String
  deriving DecidableEq, Repr

/-- `func (p *person) notify()`. -/
def person.notify (p : person) : Go Unit :=
  fmtPrintf "Sending Person Email To %s<%s>\n" [.string p.name, .string p.email]

/-- `func (d *duration) notify()`. -/
def duration.notify (d : duration) : Go Unit :=
  fmtPrintln [.string "Sending Notification in", .named "duration" (.int64 d)]

/-- `type employee struct`. -/
structure employee where
  id : ℤ
  name : String
  deriving DecidableEq, Repr

/-- An `employee` boxed for printing. -/
def employee.toValue (e : employee) : Value :=
  .named "employee" (.struct [("id", .int e.id), ("name", .string e.name)])

/-- `func (e employee) print()`. -/
def employee.print (e : employee) : Go Unit :=
  fmtPrintf "Employee Name: %s\n" [.string e.name]

/-- `func (e employee) notify()`. -/
def employee.notify (e : employee) : Go Unit :=
  fmtPrintln [.string "Alert", .string e.name]

/-- `type useradmin struct`: embeds `user`. -/
structure useradmin where
  user : user
  level : String
  deriving DecidableEq, Repr

/-- `type superadmin struct`: embeds `user` and has its own `notify`. -/
structure superadmin where
  user : user
  level : String
  deriving DecidableEq, Repr

/-- `func (a *superadmin) notify()`. -/
def superadmin.notify (a : superadmin) : Go Unit :=
  fmtPrintf "Sending Admin Email To %s<%s>\n" [.string a.user.name, .string a.user.email]

/-- The method `notify` promoted to `useradmin` from the embedded `user`. -/
def useradmin.notify (a : useradmin) : Go Unit := a.user.notify

/-- The `notifier` interface, by the dynamic types the package stores in it. -/
inductive notifier
  | personPtr (p : person)
  | useradminPtr (a : useradmin)
  | superadminPtr (a : superadmin)

/-- Dynamic dispatch of `notify`. -/
def notifier.notify : notifier → Go Unit
  | .personPtr p => p.notify
  | .useradminPtr a => a.notify
  | .superadminPtr a => a.notify

/-- `sendNotification` accepts values that implement the notifier interface. -/
def sendNotification (n : notifier) : Go Unit := n.notify

/-- `InterfacesExample2`: method sets. -/
def InterfacesExample2 : Go Unit := do
  let p : person := { name := "Bill", email := "bill@email.com" }
  sendNotification (.personPtr p)

/-- `InterfacesExample3`: the body holds comments only. -/
def InterfacesExample3 : Go Unit := pure ()

/-- The `printer` interface values of `InterfacesExample4`: a copy of an employee, or the
address of the variable `e`. -/
inductive printer
  | employeeValue (e : employee)
  | employeePtr

/-- `InterfacesExample4`: what is stored inside an interface value. -/
def InterfacesExample4 : Go Unit := do
  let e : employee := { id := 12, name := "Bill" }
  let entities : List printer := [.employeeValue e, .employeePtr]
  let e := { e with name := "Bill_CHG" }
  for en in entities do
    match en with
    | .employeeValue copied => copied.print
    | .employeePtr => e.print

/-- `type employeeSVC struct`. -/
structure employeeSVC where
  host : String
  deriving DecidableEq, Repr

/-- The `finder` interface, by the types implementing it (`*employeeSVC`, `*mockSVC`). -/
inductive finder
  | employeeSVCPtr (svc : employeeSVC)
  | mockSVCPtr

/-- Dynamic dispatch of `find`: both implementations return a new employee and a nil
error. -/
def finder.find : finder → ℤ → employee × GoError
  | .employeeSVCPtr _, id => ({ id := id, name := "Anna Walker" }, none)
  | .mockSVCPtr, id => ({ id := id, name := "Jacob Walker" }, none)

/-- `log.Fatal`: print, then exit with status 1. -/
def logFatal {α : Type} (args : List Value) : Go α := do
  Go.emit (.logPrint args)
  Go.panic (.exit 1)

/-- The closure `run` of `InterfacesExample5`. -/
def InterfacesExample5.run (f : finder) : Go GoError := do
  let (u, err) := f.find 1234
  match err with
  | some e => pure (some e)
  | none =>
    fmtPrintf "Found employee %+v\n" [.pointerTo u.toValue]
    let svc ← match f with
      | .employeeSVCPtr svc => pure svc
      | _ => Go.panic .interfaceConversion
    logPrintln [.string "queried", .string svc.host]
    pure none

/-- `InterfacesExample5`: type assertions. -/
def InterfacesExample5 : Go Unit := do
  let svc : employeeSVC := { host := "localhost:3434" }
  match ← InterfacesExample5.run (.employeeSVCPtr svc) with
  | some e => logFatal [.error e]
  | none => pure ()

/-- The closure `run` of `InterfacesExample6`. -/
def InterfacesExample6.run (f : finder) : Go GoError := do
  let (u, err) := f.find 1234
  match err with
  | some e => pure (some e)
  | none =>
    fmtPrintf "Found employee %+v\n" [.pointerTo u.toValue]
    match f with
    | .employeeSVCPtr svc => logPrintln [.string "queried", .string svc.host]
    | _ => pure ()
    pure none

/-- `InterfacesExample6`: type assertions with the comma-ok idiom. -/
def InterfacesExample6 : Go Unit := do
  match ← InterfacesExample6.run .mockSVCPtr with
  | some e => logFatal [.error e]
  | none => pure ()

/-- The closure `myPrintln` of `InterfacesExample7`: a type switch on the empty
interface. -/
def InterfacesExample7.myPrintln (a : Value) : Go Unit :=
  match a with
  | .string _ => fmtPrintf "Is string  : type(%T) : value(%s)\n" [a, a]
  | .stringOfBytes _ => fmtPrintf "Is string  : type(%T) : value(%s)\n" [a, a]
  | .int _ => fmtPrintf "Is int     : type(%T) : value(%d)\n" [a, a]
  | .float64 _ => fmtPrintf "Is float64 : type(%T) : value(%f)\n" [a, a]
  | _ => fmtPrintf "Is unknown : type(%T) : value(%v)\n" [a, a]

/-- `InterfacesExample7`: type switches and the empty interface. -/
def InterfacesExample7 : Go Unit := do
  fmtPrintln [.string "Hello, world"]
  fmtPrintln [.int 12345]
  fmtPrintln [.float64 (Float64.ofRat 3.14159)]
  fmtPrintln [.bool true]
  InterfacesExample7.myPrintln (.string "Hello, world")
  InterfacesExample7.myPrintln (.int 12345)
  InterfacesExample7.myPrintln (.float64 (Float64.ofRat 3.14159))
  InterfacesExample7.myPrintln (.bool true)

/-- An interface value as the runtime lays it out in memory: two words of pointer size,
first the type word and then the data word, which points to the value stored.  A pointer
to an `employee` is a position in the store of employees, `none` being nil. -/
structure InterfaceWords where
  typeWord : Option String
  dataWord : Option ℕ
  deriving DecidableEq, Repr

/-- The closure `inspect` of `InterfacesAdvancedExample1`, called with the address of an
interface value (given by the words found there) and a pointer `u` to an employee.
`uintptr(unsafe.Pointer(n)) + uintptr(unsafe.Sizeof(&u))` is the address of `n` moved by
the size of one pointer, that of the data word; read as a `**employee`, `*value` is the
data word and `**value` the employee it points to. -/
def InterfacesAdvancedExample1.inspect (store : List employee) (n : InterfaceWords) (u : ℕ) :
    Go Unit := do
  let value := n.dataWord
  match value with
  | none => Go.panic .nilDereference
  | some p =>
    let pointee := store.getD p { id := 0, name := "" }
    fmtPrintf "Addr employee: %p  Word Value: %p  Ptr Value: %v\n"
      [.address "employee" u, .address "employee" p, pointee.toValue]

/-- `InterfacesAdvancedExample1`: how interface assignments store values.  The variable
`u` is employee 0 of the store; storing the value `u` in an interface puts a copy in the
store and its address in the data word, storing `&u` puts the address of `u` there. -/
def InterfacesAdvancedExample1 : Go Unit := do
  let mut n1 : InterfaceWords := { typeWord := none, dataWord := none }
  let store : List employee := [{ id := 321, name := "bill" }]
  let u : ℕ := 0
  let copied := store.length
  let store := store ++ [store.getD u { id := 0, name := "" }]
  n1 := { typeWord := some "employee", dataWord := some copied }
  InterfacesAdvancedExample1.inspect store n1 u
  let n2 := n1
  InterfacesAdvancedExample1.inspect store n2 u
  n1 := { typeWord := some "*employee", dataWord := some u }
  InterfacesAdvancedExample1.inspect store n1 u

/-- The `speaker` interface, by the dynamic types stored in it. -/
inductive speaker
  | english
  | englishPtr
  | chinese
  | chinesePtr

/-- `func (e english) speak() string`. -/
def english.speak : String := "Hello World"

/-- `func (c chinese) speak() string`. -/
def chinese.speak : String := "你好世界"

/-- Dynamic dispatch of `speak`; the value-receiver methods also serve the pointers. -/
def speaker.speak : speaker → String
  | .english => english.speak
  | .englishPtr => english.speak
  | .chinese => chinese.speak
  | .chinesePtr => chinese.speak

/-- `sayHello` accepts values of the speaker type. -/
def sayHello (s : speaker) : Go Unit := fmtPrintln [.string s.speak]

/-- `InterfacesExercise1`. -/
def InterfacesExercise1 : Go Unit := do
  let s : speaker := .english
  fmtPrintln [.string s.speak]
  let _s : speaker := .chinese
  fmtPrintln [.string chinese.speak]
  fmtPrintln []
  sayHello .english
  sayHello .englishPtr
  fmtPrintln []
  sayHello .chinese
  sayHello .chinesePtr

/-! ## decoupling/embedding.go: the examples -/

/-- `type admin struct`: a `user` as a field, not embedded. -/
structure admin where
  person : user
  level : String
  deriving DecidableEq, Repr

/-- `EmbeddingExample1`: a type used as a field. -/
def EmbeddingExample1 : Go Unit := do
  let ad : admin := { person := { name := "john smith", email := "john@yahoo.com" },
                      level := "super" }
  ad.person.notify

/-- `EmbeddingExample2`: embedding a type. -/
def EmbeddingExample2 : Go Unit := do
  let ad : useradmin := { user := { name := "john smith", email := "john@yahoo.com" },
                          level := "super" }
  ad.user.notify
  ad.notify

/-- `EmbeddingExample3`: embedded types and interfaces. -/
def EmbeddingExample3 : Go Unit := do
  let ad : useradmin := { user := { name := "john smith", email := "john@yahoo.com" },
                          level := "super" }
  sendNotification (.useradminPtr ad)

/-- `EmbeddingExample4`: outer and inner type implement the same interface. -/
def EmbeddingExample4 : Go Unit := do
  let ad : superadmin := { user := { name := "john smith", email := "john@yahoo.com" },
                           level := "super" }
  sendNotification (.superadminPtr ad)
  ad.user.notify
  ad.notify

/-! ## decoupling/exporting.go -/

/-- `counters.New`: a value of the unexported type `alertCounter`. -/
def counters.New (value : ℤ) : ℤ := value

/-- `ExportingExample1`: an exported identifier. -/
def ExportingExample1 : Go Unit := do
  let counter : ℤ := 10
  fmtPrintf "Counter: %d\n" [.named "counters.AlertCounter" (.int counter)]

/-- `ExportingExample2`: the body holds comments only. -/
def ExportingExample2 : Go Unit := pure ()

/-- `ExportingExample3`: a value of an unexported type. -/
def ExportingExample3 : Go Unit := do
  let counter := counters.New 10
  fmtPrintf "Counter: %d\n" [.named "counters.alertCounter" (.int counter)]

/-- `users.User`: information about a user. -/
structure users.User where
  Name : String
  ID : ℤ
  password : String
  deriving DecidableEq, Repr

/-- The unexported `users.user`. -/
structure users.user where
  Name : String
  ID : ℤ
  deriving DecidableEq, Repr

/-- `users.Manager`: embeds the unexported `user`. -/
structure users.Manager where
  Title : String
  user : users.user
  deriving DecidableEq, Repr

/-- A `users.User` boxed for printing. -/
def users.User.toValue (u : users.User) : Value :=
  .named "users.User"
    (.struct [("Name", .string u.Name), ("ID", .int u.ID), ("password", .string u.password)])

/-- A `users.Manager` boxed for printing. -/
def users.Manager.toValue (m : users.Manager) : Value :=
  .named "users.Manager" (.struct [("Title", .string m.Title),
    ("user", .named "users.user" (.struct [("Name", .string m.user.Name), ("ID", .int m.user.ID)]))])

/-- `ExportingExample4`: unexported fields of an exported struct type. -/
def ExportingExample4 : Go Unit := do
  let u : users.User := { Name := "Chole", ID := 10, password := "" }
  fmtPrintf "User: %#v\n" [u.toValue]

/-- `ExportingExample5`: exported types with embedded unexported types. -/
def ExportingExample5 : Go Unit := do
  let u : users.Manager := { Title := "Dev Manager", user := { Name := "", ID := 0 } }
  let u := { u with user := { u.user with Name := "Chole" } }
  let u := { u with user := { u.user with ID := 10 } }
  fmtPrintf "User: %#v\n" [u.toValue]

/-! ## The example and exercise functions -/

/-- The example and exercise functions of the repository, all 67 of them. -/
inductive ExampleFunction
  | ArraysExample1 | ArraysExample2 | ArraysExample3 | ArraysExample4 | ArraysExercise1
  | MapsExample1 | MapsExample2 | MapsExample3 | MapsExample4 | MapsExample5 | MapsExample6
  | MapsExample7 | MapsExercise1
  | SlicesExample1 | SlicesExample2 | SlicesExample3 | SlicesExample4 | SlicesExample5
  | SlicesExample6 | SlicesExample7 | SlicesExample8 | SlicesAdvancedExample1
  | SlicesExercise1
  | PointersExample1 | PointersExample2 | PointersExample3 | PointersExample4
  | PointersExample5 | PointersExercise1 | PointersExercise2
  | VariableExample1 | VariableExercise1
  | StructTypeExample1 | StructTypeExample2 | StructTypeExample3 | StructTypeExercise1
  | ConstantsExample1 | ConstantsExample2 | ConstantsExample3 | ConstantsExample4
  | ConstantsExercise1
  | MethodsExample1 | MethodsExample2 | MethodsExample3 | MethodsExample4 | MethodsExercise1
  | InterfacesExample0 | InterfacesExample1 | InterfacesExample2 | InterfacesExample3
  | InterfacesExample4 | InterfacesExample5 | InterfacesExample6 | InterfacesExample7
  | InterfacesAdvancedExample1 | InterfacesExercise1
  | EmbeddingExample1 | EmbeddingExample2 | EmbeddingExample3 | EmbeddingExample4
  | EmbeddingExercise1
  | ExportingExample1 | ExportingExample2 | ExportingExample3 | ExportingExample4
  | ExportingExample5 | ExportingExercise1
  deriving DecidableEq, Repr

/-- The program of an example function under a runtime. -/
def ExampleFunction.program (rt : Runtime) : ExampleFunction → Go Unit
  | .ArraysExample1 => UltimateGo.ArraysExample1
  | .ArraysExample2 => UltimateGo.ArraysExample2
  | .ArraysExample3 => UltimateGo.ArraysExample3
  | .ArraysExample4 => UltimateGo.ArraysExample4
  | .ArraysExercise1 => UltimateGo.ArraysExercise1
  | .MapsExample1 => UltimateGo.MapsExample1
  | .MapsExample2 => UltimateGo.MapsExample2
  | .MapsExample3 => UltimateGo.MapsExample3 rt
  | .MapsExample4 => UltimateGo.MapsExample4 rt
  | .MapsExample5 => UltimateGo.MapsExample5 rt
  | .MapsExample6 => UltimateGo.MapsExample6
  | .MapsExample7 => UltimateGo.MapsExample7
  | .MapsExercise1 => UltimateGo.MapsExercise1 rt
  | .SlicesExample1 => UltimateGo.SlicesExample1
  | .SlicesExample2 => UltimateGo.SlicesExample2
  | .SlicesExample3 => UltimateGo.SlicesExample3
  | .SlicesExample4 => UltimateGo.SlicesExample4 rt
  | .SlicesExample5 => UltimateGo.SlicesExample5 rt
  | .SlicesExample6 => UltimateGo.SlicesExample6
  | .SlicesExample7 => UltimateGo.SlicesExample7
  | .SlicesExample8 => UltimateGo.SlicesExample8
  | .SlicesAdvancedExample1 => UltimateGo.SlicesAdvancedExample1 rt
  | .SlicesExercise1 => UltimateGo.SlicesExercise1 rt
  | .PointersExample1 => UltimateGo.PointersExample1
  | .PointersExample2 => UltimateGo.PointersExample2
  | .PointersExample3 => UltimateGo.PointersExample3
  | .PointersExample4 => UltimateGo.PointersExample4
  | .PointersExample5 => UltimateGo.PointersExample5
  | .PointersExercise1 => UltimateGo.PointersExercise1
  | .PointersExercise2 => UltimateGo.PointersExercise2
  | .VariableExample1 => UltimateGo.VariableExample1
  | .VariableExercise1 => UltimateGo.VariableExercise1
  | .StructTypeExample1 => UltimateGo.StructTypeExample1
  | .StructTypeExample2 => UltimateGo.StructTypeExample2
  | .StructTypeExample3 => UltimateGo.StructTypeExample3
  | .StructTypeExercise1 => UltimateGo.StructTypeExercise1
  | .ConstantsExample1 => UltimateGo.ConstantsExample1
  | .ConstantsExample2 => UltimateGo.ConstantsExample2
  | .ConstantsExample3 => UltimateGo.ConstantsExample3
  | .ConstantsExample4 => UltimateGo.ConstantsExample4 rt
  | .ConstantsExercise1 => UltimateGo.ConstantsExercise1
  | .MethodsExample1 => UltimateGo.MethodsExample1
  | .MethodsExample2 => UltimateGo.MethodsExample2
  | .MethodsExample3 => UltimateGo.MethodsExample3
  | .MethodsExample4 => UltimateGo.MethodsExample4
  | .MethodsExercise1 => UltimateGo.MethodsExercise1
  | .InterfacesExample0 => UltimateGo.InterfacesExample0
  | .InterfacesExample1 => UltimateGo.InterfacesExample1
  | .InterfacesExample2 => UltimateGo.InterfacesExample2
  | .InterfacesExample3 => UltimateGo.InterfacesExample3
  | .InterfacesExample4 => UltimateGo.InterfacesExample4
  | .InterfacesExample5 => UltimateGo.InterfacesExample5
  | .InterfacesExample6 => UltimateGo.InterfacesExample6
  | .InterfacesExample7 => UltimateGo.InterfacesExample7
  | .InterfacesAdvancedExample1 => UltimateGo.InterfacesAdvancedExample1
  | .InterfacesExercise1 => UltimateGo.InterfacesExercise1
  | .EmbeddingExample1 => UltimateGo.EmbeddingExample1
  | .EmbeddingExample2 => UltimateGo.EmbeddingExample2
  | .EmbeddingExample3 => UltimateGo.EmbeddingExample3
  | .EmbeddingExample4 => UltimateGo.EmbeddingExample4
  | .EmbeddingExercise1 => UltimateGo.EmbeddingExercise1
  | .ExportingExample1 => UltimateGo.ExportingExample1
  | .ExportingExample2 => UltimateGo.ExportingExample2
  | .ExportingExample3 => UltimateGo.ExportingExample3
  | .ExportingExample4 => UltimateGo.ExportingExample4
  | .ExportingExample5 => UltimateGo.ExportingExample5
  | .ExportingExercise1 => UltimateGo.ExportingExercise1

/-! ## main.go and the packages -/

/-- The packages that declare the example and exercise functions, by their package
clause. -/
inductive Package
  | languagePkg
  | datastructuresPkg
  | syntaxPkg
  | decouplingPkg
  deriving DecidableEq, Repr

/-- The package that declares an example function: the package clause of its file. -/
def ExampleFunction.package : ExampleFunction → Package
  | .ArraysExample1 | .ArraysExample2 | .ArraysExample3 | .ArraysExample4
  | .ArraysExercise1 => .datastructuresPkg
  | .MapsExample1 | .MapsExample2 | .MapsExample3 | .MapsExample4 | .MapsExample5
  | .MapsExample6 | .MapsExample7 | .MapsExercise1 => .languagePkg
  | .SlicesExample1 | .SlicesExample2 | .SlicesExample3 | .SlicesExample4 | .SlicesExample5
  | .SlicesExample6 | .SlicesExample7 | .SlicesExample8 | .SlicesAdvancedExample1
  | .SlicesExercise1 => .languagePkg
  | .PointersExample1 | .PointersExample2 | .PointersExample3 | .PointersExample4
  | .PointersExample5 | .PointersExercise1 | .PointersExercise2 => .languagePkg
  | .VariableExample1 | .VariableExercise1 => .syntaxPkg
  | .StructTypeExample1 | .StructTypeExample2 | .StructTypeExample3
  | .StructTypeExercise1 => .syntaxPkg
  | .ConstantsExample1 | .ConstantsExample2 | .ConstantsExample3 | .ConstantsExample4
  | .ConstantsExercise1 => .syntaxPkg
  | .MethodsExample1 | .MethodsExample2 | .MethodsExample3 | .MethodsExample4
  | .MethodsExercise1 => .decouplingPkg
  | .InterfacesExample0 | .InterfacesExample1 | .InterfacesExample2 | .InterfacesExample3
  | .InterfacesExample4 | .InterfacesExample5 | .InterfacesExample6 | .InterfacesExample7
  | .InterfacesAdvancedExample1 | .InterfacesExercise1 => .decouplingPkg
  | .EmbeddingExample1 | .EmbeddingExample2 | .EmbeddingExample3 | .EmbeddingExample4
  | .EmbeddingExercise1 => .decouplingPkg
  | .ExportingExample1 | .ExportingExample2 | .ExportingExample3 | .ExportingExample4
  | .ExportingExample5 | .ExportingExercise1 => .decouplingPkg

/-- The compiler's error for a qualified identifier `pkg.Name` that `pkg` does not
declare: `undefined: pkg.Name`. -/
inductive BuildError
  | undefined (pkg : Package) (name : ExampleFunction)
  deriving DecidableEq, Repr

/-- Resolution of the qualified identifier `pkg.Name`: the function of that name when
the package `pkg` declares it. -/
def resolveQualified (pkg : Package) (name : ExampleFunction) :
    Except BuildError ExampleFunction :=
  if name.package = pkg then .ok name else .error (.undefined pkg name)

/-- `func main()` of main.go, which imports `ultimate-go-programming/language` and calls
`language.StructTypeExercise1()`: the program it builds to, or the build error. -/
def main (rt : Runtime) : Except BuildError (Go Unit) := do
  let f ← resolveQualified .languagePkg .StructTypeExercise1
  pure (f.program rt)

/-! ## fmt: the text of the verbs `%v`, `%+v`, `%s`, `%d`, `%f` and `%T`

The functions below give the text `fmt` writes, for the verbs and operands listed; the
result is `none` outside that fragment.  The defined types of the repository have no
`String` or `Error` method, so a value of a defined struct type prints as its struct. -/

/-- The type name `%T` prints, for the predeclared types. -/
def Value.typeName : Value → Option String
  | .bool _ => some "bool"
  | .int _ => some "int"
  | .int16 _ => some "int16"
  | .int32 _ => some "int32"
  | .int64 _ => some "int64"
  | .uint8 _ => some "uint8"
  | .float32 _ => some "float32"
  | .float64 _ => some "float64"
  | .string _ => some "string"
  | .stringOfBytes _ => some "string"
  | _ => none

mutual

/-- The text of `%v` (`plus = false`) and `%+v` (`plus = true`) for booleans, integers,
strings and structs of those: a struct is its fields between braces, separated by one
space, each field preceded by `name:` under `%+v`. -/
def Value.renderV (plus : Bool) : Value → Option String
  | .bool b => some (if b then "true" else "false")
  | .int n => some (toString n)
  | .int16 n => some (toString n)
  | .int32 n => some (toString n)
  | .int64 n => some (toString n)
  | .uint8 n => some (toString n)
  | .string s => some s
  | .struct fields =>
    match Value.renderFields plus fields with
    | some parts => some ("\x7b" ++ " ".intercalate parts ++ "\x7d")
    | none => none
  | .named _ (.struct fields) =>
    match Value.renderFields plus fields with
    | some parts => some ("\x7b" ++ " ".intercalate parts ++ "\x7d")
    | none => none
  | _ => none

/-- The texts of the fields of a struct. -/
def Value.renderFields (plus : Bool) : List (String × Value) → Option (List String)
  | [] => some []
  | (name, v) :: rest =>
    match Value.renderV plus v, Value.renderFields plus rest with
    | some text, some texts => some ((if plus then name ++ ":" ++ text else text) :: texts)
    | _, _ => none

end

/-- The text of `%f` (six digits after the point) for a finite value: the exact value is
rounded to the nearest multiple of `10^-6`, ties to even. -/
def FloatVal.renderF : FloatVal → Option String
  | .finite q =>
    let n := (roundHalfEven (|q| * 1000000)).toNat
    let digits := toString (n % 1000000)
    let zeros := String.mk (List.replicate (6 - digits.length) '0')
    some ((if q < 0 then "-" else "") ++ toString (n / 1000000) ++ "." ++ zeros ++ digits)
  | _ => none

/-- The text of `%d` for the integer types. -/
def Value.renderD : Value → Option String
  | .int n => some (toString n)
  | .int16 n => some (toString n)
  | .int32 n => some (toString n)
  | .int64 n => some (toString n)
  | .uint8 n => some (toString n)
  | _ => none

/-- `fmt.Sprintf` over the characters of the format: each verb consumes one operand. -/
def sprintfChars : List Char → List Value → Option String
  | [], [] => some ""
  | [], _ :: _ => none
  | '%' :: '%' :: rest, args => (sprintfChars rest args).map fun text => "%" ++ text
  | '%' :: 'v' :: rest, a :: args =>
    match a.renderV false, sprintfChars rest args with
    | some text, some texts => some (text ++ texts)
    | _, _ => none
  | '%' :: '+' :: 'v' :: rest, a :: args =>
    match a.renderV true, sprintfChars rest args with
    | some text, some texts => some (text ++ texts)
    | _, _ => none
  | '%' :: 's' :: rest, .string s :: args =>
    (sprintfChars rest args).map fun texts => s ++ texts
  | '%' :: 'd' :: rest, a :: args =>
    match a.renderD, sprintfChars rest args with
    | some text, some texts => some (text ++ texts)
    | _, _ => none
  | '%' :: 'f' :: rest, .float64 x :: args =>
    match x.renderF, sprintfChars rest args with
    | some text, some texts => some (text ++ texts)
    | _, _ => none
  | '%' :: 'T' :: rest, a :: args =>
    match a.typeName, sprintfChars rest args with
    | some text, some texts => some (text ++ texts)
    | _, _ => none
  | '%' :: _, _ => none
  | c :: rest, args => (sprintfChars rest args).map fun texts => String.singleton c ++ texts

/-- `fmt.Sprintf(format, args...)`. -/
def sprintf (format : String) (args : List Value) : Option String :=
  sprintfChars format.data args

/-- `fmt.Sprintln(args...)`: the operands under `%v`, separated by spaces, and a newline. -/
def sprintln (args : List Value) : Option String :=
  (args.mapM (Value.renderV false)).map fun texts => " ".intercalate texts ++ "\n"

/-- `fmt.Sprint(args...)`: the operands under `%v`, a space added between two operands
when neither is a string. -/
def sprint : List Value → Option String
  | [] => some ""
  | [a] => a.renderV false
  | a :: b :: rest =>
    match a.renderV false, sprint (b :: rest) with
    | some text, some texts =>
      some (text ++ (if a.isString || b.isString then "" else " ") ++ texts)
    | _, _ => none

/-- The text an event writes to standard output; events of `log`, of the builtin
`println` (both write to standard error) and sleeps write nothing there. -/
def Event.stdout : Event → Option String
  | .printf format args => sprintf format args
  | .println args => sprintln args
  | .print args => sprint args
  | _ => some ""

/-- The text a trace writes to standard output. -/
def stdoutText : List Event → Option String
  | [] => some ""
  | e :: rest =>
    match e.stdout, stdoutText rest with
    | some text, some texts => some (text ++ texts)
    | _, _ => none

end UltimateGo

/-! # Theorems -/

namespace UltimateGo

/-! ## Rounding lemmas -/

theorem roundHalfEven_intCast (n : ℤ) : roundHalfEven (n : ℚ) = n := by
  simp [roundHalfEven]

/-- The base-2 logarithm of a positive rational lying in `[2^L, 2^(L+1))`. -/
theorem intLog_eq_of_bounds {q : ℚ} {L : ℤ} (h1 : (2 : ℚ) ^ L ≤ q) (h2 : q < (2 : ℚ) ^ (L + 1)) :
    Int.log 2 q = L := by
  have hq : 0 < q := lt_of_lt_of_le (by positivity) h1
  have hb : 1 < (2 : ℕ) := by norm_num
  have a1 : L ≤ Int.log 2 q := (Int.zpow_le_iff_le_log hb hq).1 (by exact_mod_cast h1)
  have a2 : Int.log 2 q < L + 1 := (Int.lt_zpow_iff_log_lt hb hq).1 (by exact_mod_cast h2)
  omega

/-- Evaluation of `roundBinary` once the binade of the argument is known. -/
theorem roundBinary_eq_of_bounds (prec : ℕ) (emin : ℤ) {q : ℚ} {L m : ℤ}
    (h1 : (2 : ℚ) ^ L ≤ |q|) (h2 : |q| < (2 : ℚ) ^ (L + 1)) (he : emin ≤ L - (prec - 1))
    (hm : roundHalfEven (q / (2 : ℚ) ^ (L - (prec - 1))) = m) :
    roundBinary prec emin q = (m : ℚ) * (2 : ℚ) ^ (L - (prec - 1)) := by
  have hL : Int.log 2 |q| = L := intLog_eq_of_bounds h1 h2
  have hexp : ulpExponent prec emin q = L - (prec - 1) := by
    simp only [ulpExponent, hL]
    exact max_eq_left he
  simp only [roundBinary, hexp, hm]

/-- Integers below `2^53` in magnitude are binary64 values: rounding leaves them as they
are. -/
theorem roundBinary_intCast (n : ℤ) (hn : n.natAbs < 2 ^ 53) :
    roundBinary 53 (-1074) (n : ℚ) = n := by
  have habs : |(n : ℚ)| = ((n.natAbs : ℕ) : ℚ) := by
    rw [Nat.cast_natAbs, Int.cast_abs]
  have hlog : Int.log 2 |(n : ℚ)| = (Nat.log 2 n.natAbs : ℤ) := by
    rw [habs, Int.log_natCast]
  have hlt : Nat.log 2 n.natAbs < 53 := by
    by_cases h0 : n.natAbs = 0
    · simp [h0]
    · exact Nat.log_lt_of_lt_pow h0 hn
  obtain ⟨k, hk⟩ : ∃ k : ℕ, k + Nat.log 2 n.natAbs = 52 := ⟨52 - Nat.log 2 n.natAbs, by omega⟩
  have hexp : ulpExponent 53 (-1074) (n : ℚ) = -(k : ℤ) := by
    simp only [ulpExponent, hlog]
    have : ((Nat.log 2 n.natAbs : ℕ) : ℤ) - ((53 : ℕ) - 1 : ℤ) = -(k : ℤ) := by
      push_cast
      omega
    rw [this]
    apply max_eq_left
    omega
  have hscaled : (n : ℚ) / (2 : ℚ) ^ (-(k : ℤ)) = ((n * 2 ^ k : ℤ) : ℚ) := by
    rw [zpow_neg, zpow_natCast]
    push_cast
    field_simp
  simp only [roundBinary, hexp, hscaled, roundHalfEven_intCast]
  rw [zpow_neg, zpow_natCast]
  push_cast
  field_simp

theorem Float64.ofInt_eq (n : ℤ) (hn : n.natAbs < 2 ^ 53) : Float64.ofInt n = .finite n := by
  have hr := roundBinary_intCast n hn
  have hlt : |(n : ℚ)| < (2 : ℚ) ^ ((1023 : ℤ) + 1) := by
    have h1 : |(n : ℚ)| < (2 : ℚ) ^ (53 : ℕ) := by
      rw [← Int.cast_abs, Int.abs_eq_natAbs]
      exact_mod_cast hn
    have h2 : (2 : ℚ) ^ (53 : ℕ) ≤ (2 : ℚ) ^ ((1023 : ℤ) + 1) := by
      rw [← zpow_natCast]
      exact zpow_le_zpow_right₀ (by norm_num) (by norm_num)
    exact lt_of_lt_of_le h1 h2
  simp only [Float64.ofInt, Float64.ofRat, FloatVal.ofRat, hr]
  rw [if_pos hlt]

theorem roundHalfEven_eq_floor {s : ℚ} {m : ℤ} (h1 : (m : ℚ) ≤ s) (h2 : s - m < 1 / 2) :
    roundHalfEven s = m := by
  have hf : ⌊s⌋ = m := by
    rw [Int.floor_eq_iff]
    constructor
    · exact h1
    · linarith
  simp only [roundHalfEven, hf]
  rw [if_pos h2]

theorem roundHalfEven_eq_ceil {s : ℚ} {m : ℤ} (h1 : 1 / 2 < s - m) (h2 : s < m + 1) :
    roundHalfEven s = m + 1 := by
  have hf : ⌊s⌋ = m := by
    rw [Int.floor_eq_iff]
    constructor
    · linarith
    · exact h2
  simp only [roundHalfEven, hf]
  rw [if_neg (not_lt.2 h1.le), if_pos h1]

theorem FloatVal.ofRat_eq_finite {prec : ℕ} {emin emax : ℤ} {q r : ℚ}
    (hr : roundBinary prec emin q = r) (hlt : |r| < (2 : ℚ) ^ (emax + 1)) :
    FloatVal.ofRat prec emin emax q = .finite r := by
  simp only [FloatVal.ofRat, hr]
  rw [if_pos hlt]

/-- The float64 value of the constant `1e-9/60/60` in `hours`. -/
theorem hoursScale_eq :
    Float64.ofRat (1e-9 / 60 / 60) = .finite (2750977865078623 / 2 ^ 93) := by
  have hq : (1e-9 / 60 / 60 : ℚ) = 1 / 3600000000000 := by norm_num
  have hr : roundBinary 53 (-1074) (1 / 3600000000000 : ℚ)
      = ((5501955730157246 : ℤ) : ℚ) * (2 : ℚ) ^ ((-42 : ℤ) - (((53 : ℕ) : ℤ) - 1)) := by
    apply roundBinary_eq_of_bounds
    · rw [abs_of_pos (by norm_num)]
      norm_num
    · rw [abs_of_pos (by norm_num)]
      norm_num
    · norm_num
    · have : (5501955730157246 : ℤ) = 5501955730157245 + 1 := by norm_num
      rw [this]
      apply roundHalfEven_eq_ceil
      · norm_num
      · norm_num
  rw [hq]
  unfold Float64.ofRat
  have hv : ((5501955730157246 : ℤ) : ℚ) * (2 : ℚ) ^ ((-42 : ℤ) - (((53 : ℕ) : ℤ) - 1))
      = 2750977865078623 / 2 ^ 93 := by norm_num
  rw [hv] at hr
  apply FloatVal.ofRat_eq_finite hr
  rw [abs_of_pos (by norm_num)]
  norm_num

/-- The float64 constant `1.5` is exactly representable. -/
theorem ofRat_one_and_a_half : Float64.ofRat (3 / 2) = .finite (3 / 2) := by
  have hr : roundBinary 53 (-1074) (3 / 2 : ℚ)
      = ((6755399441055744 : ℤ) : ℚ) * (2 : ℚ) ^ ((0 : ℤ) - (((53 : ℕ) : ℤ) - 1)) := by
    apply roundBinary_eq_of_bounds
    · rw [abs_of_pos (by norm_num)]
      norm_num
    · rw [abs_of_pos (by norm_num)]
      norm_num
    · norm_num
    · apply roundHalfEven_eq_floor
      · norm_num
      · norm_num
  unfold Float64.ofRat
  have hv : ((6755399441055744 : ℤ) : ℚ) * (2 : ℚ) ^ ((0 : ℤ) - (((53 : ℕ) : ℤ) - 1))
      = 3 / 2 := by norm_num
  rw [hv] at hr
  apply FloatVal.ofRat_eq_finite hr
  rw [abs_of_pos (by norm_num)]
  norm_num

theorem hour_eq : duration.hour = 3600000000000 := by
  simp [duration.hour, duration.minute, duration.second, duration.millisecond,
    duration.microsecond, duration.nanosecond]

theorem ofRat_zero : Float64.ofRat 0 = .finite 0 := by
  have h := Float64.ofInt_eq 0 (by norm_num)
  simpa [Float64.ofInt] using h

/-- In `hours`, a remainder of zero contributes nothing: the result is the float64 of the
quotient. -/
theorem add_ofInt_mul_zero (n : ℤ) (hn : n.natAbs < 2 ^ 53) :
    Float64.add (Float64.ofInt n) (Float64.mul (Float64.ofInt 0) (Float64.ofRat (1e-9 / 60 / 60)))
      = .finite n := by
  rw [Float64.ofInt_eq n hn, Float64.ofInt_eq 0 (by norm_num), hoursScale_eq]
  simp only [Float64.mul, Float64.add, Int.cast_zero, zero_mul, ofRat_zero, add_zero]
  exact Float64.ofInt_eq n hn

/-! ## `duration` -/

theorem toInt64_intCast (n : ℤ) (h1 : -2 ^ 63 ≤ n) (h2 : n < 2 ^ 63) :
    Float64.toInt64 (.finite (n : ℚ)) = n := by
  have ht : Float64.truncate (n : ℚ) = n := by
    unfold Float64.truncate
    split <;> simp
  simp only [Float64.toInt64, ht]
  rw [if_pos ⟨h1, h2⟩]

theorem wrapInt64_of_range (z : ℤ) (h1 : -2 ^ 63 ≤ z) (h2 : z < 2 ^ 63) : wrapInt64 z = z := by
  unfold wrapInt64
  omega

/-- The product of the float64 of `1.8e12` with the scale constant rounds to one half. -/
theorem mul_half_hour :
    Float64.mul (Float64.ofInt 1800000000000) (Float64.ofRat (1e-9 / 60 / 60)) = .finite (1 / 2) := by
  rw [Float64.ofInt_eq _ (by norm_num), hoursScale_eq]
  simp only [Float64.mul]
  have hr : roundBinary 53 (-1074)
      (((1800000000000 : ℤ) : ℚ) * (2750977865078623 / 2 ^ 93))
      = ((4503599627370496 : ℤ) : ℚ) * (2 : ℚ) ^ ((-1 : ℤ) - (((53 : ℕ) : ℤ) - 1)) := by
    apply roundBinary_eq_of_bounds
    · rw [abs_of_pos (by norm_num)]
      norm_num
    · rw [abs_of_pos (by norm_num)]
      norm_num
    · norm_num
    · apply roundHalfEven_eq_floor
      · norm_num
      · norm_num
  have hv : ((4503599627370496 : ℤ) : ℚ) * (2 : ℚ) ^ ((-1 : ℤ) - (((53 : ℕ) : ℤ) - 1))
      = 1 / 2 := by norm_num
  rw [hv] at hr
  unfold Float64.ofRat
  apply FloatVal.ofRat_eq_finite hr
  rw [abs_of_pos (by norm_num)]
  norm_num

/-- C1 (code defect): for the duration of 5,400,000,000,000 ns, one and a half hours,
`hours` returns 1 and not 1.5.  The local `hour := d / hour` shadows the constant, so the
remainder is taken modulo the hour count 1 and is 0; computed against the constant, as
the documentation words it, the result is 1.5. -/
theorem C1_hours_drops_the_fraction :
    duration.hours 5400000000000 = .ok (.finite 1)
      ∧ duration.hoursAsDocumented 5400000000000 = .finite (3 / 2)
      ∧ (FloatVal.finite 1 : Float64) ≠ .finite (3 / 2) := by
  refine ⟨?_, ?_, ?_⟩
  · have hd : intDiv 5400000000000 duration.hour = .ok 1 := by
      rw [hour_eq]
      rfl
    have hm : intMod 5400000000000 1 = .ok 0 := by rfl
    have hv := add_ofInt_mul_zero 1 (by norm_num)
    simp only [duration.hours, hd, hm, bind, Except.bind, pure, Except.pure]
    rw [hv]
    norm_num
  · have hd : Int.tdiv 5400000000000 duration.hour = 1 := by
      rw [hour_eq]
      decide
    have hm : Int.tmod 5400000000000 duration.hour = 1800000000000 := by
      rw [hour_eq]
      decide
    simp only [duration.hoursAsDocumented, hd, hm]
    rw [mul_half_hour, Float64.ofInt_eq 1 (by norm_num)]
    simp only [Float64.add]
    have : (((1 : ℤ) : ℚ) + 1 / 2) = 3 / 2 := by norm_num
    rw [this]
    exact ofRat_one_and_a_half
  · intro h
    have := FloatVal.finite.inj h
    norm_num at this

/-- C2 (code defect): setting zero hours and asking for the hours does not return 0:
`hours` panics with an integer division by zero, whatever the duration held before.
The local `hour` is `0 / hour = 0`, and `d % hour` then divides by it. -/
theorem C2_hours_after_setHours_zero_panics (d : duration) :
    duration.hours (duration.setHours d (Float64.ofInt 0)) = .error .divideByZero := by
  have h0 : duration.setHours d (Float64.ofInt 0) = 0 := by
    rw [Float64.ofInt_eq 0 (by norm_num)]
    unfold duration.setHours
    rw [toInt64_intCast 0 (by norm_num) (by norm_num)]
    simp [wrapInt64]
  rw [h0]
  have hd : intDiv 0 duration.hour = .ok 0 := by
    rw [hour_eq]
    rfl
  have hm : intMod 0 0 = .error .divideByZero := by rfl
  simp only [duration.hours, hd, hm, bind, Except.bind]

/-- For a whole number of hours other than zero the round trip does return `h`. -/
theorem hours_setHours_of_ne_zero (d : duration) (h : ℤ) (hne : h ≠ 0)
    (hb : |h| ≤ 2562047) :
    duration.hours (duration.setHours d (Float64.ofInt h)) = .ok (.finite h) := by
  have habs := abs_le.1 hb
  have hnat : h.natAbs < 2 ^ 53 := by omega
  have hset : duration.setHours d (Float64.ofInt h) = h * 3600000000000 := by
    rw [Float64.ofInt_eq h hnat]
    unfold duration.setHours
    rw [toInt64_intCast h (by omega) (by omega), hour_eq]
    exact wrapInt64_of_range _ (by omega) (by omega)
  rw [hset]
  have hd : intDiv (h * 3600000000000) duration.hour = .ok h := by
    rw [hour_eq]
    unfold intDiv
    rw [if_neg (by norm_num), Int.mul_tdiv_cancel _ (by norm_num)]
    rw [wrapInt64_of_range _ (by omega) (by omega)]
  have hm : intMod (h * 3600000000000) h = .ok 0 := by
    unfold intMod
    rw [if_neg hne, Int.mul_tmod_right]
  have hv := add_ofInt_mul_zero h hnat
  simp only [duration.hours, hd, hm, bind, Except.bind, pure, Except.pure]
  rw [hv]

/-- C3 (code defect): `setHours(1.5)` converts the hours to an integer before scaling
them, so it leaves `d` at one hour, 3,600,000,000,000 ns, and not at the
5,400,000,000,000 ns of one and a half hours. -/
theorem C3_setHours_truncates (d : duration) :
    duration.setHours d (Float64.ofRat (3 / 2)) = 3600000000000
      ∧ duration.setHours d (Float64.ofRat (3 / 2)) ≠ 5400000000000 := by
  have ht : Float64.truncate (3 / 2 : ℚ) = 1 := by
    unfold Float64.truncate
    rw [if_pos (by norm_num), Int.floor_eq_iff]
    norm_num
  have h : duration.setHours d (Float64.ofRat (3 / 2)) = 3600000000000 := by
    rw [ofRat_one_and_a_half]
    simp only [duration.setHours, Float64.toInt64, ht]
    rw [if_pos (by norm_num), hour_eq]
    exact wrapInt64_of_range _ (by norm_num) (by norm_num)
  exact ⟨h, by rw [h]; norm_num⟩

/-! ## The `Go` monad -/

theorem Go.pure_apply {α : Type} (a : α) (t : List Event) : (pure a : Go α) t = (.ok a, t) := rfl

theorem Go.bind_apply {α β : Type} (m : Go α) (f : α → Go β) (t : List Event) :
    (m >>= f) t = match m t with
      | (.ok a, t1) => f a t1
      | (.error p, t1) => (.error p, t1) := rfl

theorem Go.bind_of_ok {α β : Type} {m : Go α} {f : α → Go β} {t t1 : List Event} {a : α}
    (h : m t = (.ok a, t1)) : (m >>= f) t = f a t1 := by
  rw [Go.bind_apply, h]

theorem Go.bind_of_error {α β : Type} {m : Go α} {f : α → Go β} {t t1 : List Event} {p : Panic}
    (h : m t = (.error p, t1)) : (m >>= f) t = (.error p, t1) := by
  rw [Go.bind_apply, h]

/-! ## Maps -/

theorem GoMap.lookup_insertEntry_self {κ ν : Type} [DecidableEq κ] (k : κ) (v : ν)
    (l : List (κ × ν)) : (GoMap.insertEntry k v l).lookup k = some v := by
  induction l with
  | nil => simp [GoMap.insertEntry, List.lookup]
  | cons e rest ih =>
    obtain ⟨k1, v1⟩ := e
    by_cases h : k1 = k
    · simp [GoMap.insertEntry, h, List.lookup]
    · have hb : (k == k1) = false := by simpa using fun h1 => h h1.symm
      simp [GoMap.insertEntry, h, List.lookup, hb, ih]

theorem GoMap.lookup_insertEntry_of_ne {κ ν : Type} [DecidableEq κ] (k k2 : κ) (v : ν)
    (l : List (κ × ν)) (hne : k2 ≠ k) : (GoMap.insertEntry k v l).lookup k2 = l.lookup k2 := by
  induction l with
  | nil =>
    have hb : (k2 == k) = false := by simpa using hne
    simp [GoMap.insertEntry, List.lookup, hb]
  | cons e rest ih =>
    obtain ⟨k1, v1⟩ := e
    by_cases h : k1 = k
    · subst h
      have hb : (k2 == k1) = false := by simpa using hne
      simp [GoMap.insertEntry, List.lookup, hb]
    · by_cases h2 : k2 = k1
      · subst h2
        simp [GoMap.insertEntry, h, List.lookup]
      · have hb : (k2 == k1) = false := by simpa using h2
        simp [GoMap.insertEntry, h, List.lookup, hb, ih]

/-! ## `Feed` and `CachingFeed` -/

/-- The document `Feed.Fetch` makes up for a key. -/
theorem Feed.Fetch_eq (f : Feed) (key : String) (t : List Event) :
    f.Fetch key t
      = (.ok ({ Key := key, Title := "Title for " ++ key }, none), t ++ [.sleep timeSecond]) := rfl

theorem feedFetchCalls_append_sleep (t : List Event) (d : ℤ) :
    feedFetchCalls (t ++ [.sleep d]) = feedFetchCalls t + 1 := by
  simp [feedFetchCalls, List.countP_append]

/-- A hit: `Fetch` of a cached key. -/
theorem CachingFeed.Fetch_of_cached (cf : CachingFeed) (key : String) (doc : Document)
    (t : List Event) (h : cf.documents.get? key = some doc) :
    cf.Fetch key t = (.ok ((doc, none), cf), t) := by
  unfold CachingFeed.Fetch
  simp only [h]
  rfl

/-- A miss on an initialised map: `Fetch` of a key that is not cached. -/
theorem CachingFeed.Fetch_of_absent (cf : CachingFeed) (key : String) (l : List (String × Document))
    (t : List Event) (hl : cf.documents = some l) (h : cf.documents.get? key = none) :
    cf.Fetch key t
      = (.ok (({ Key := key, Title := "Title for " ++ key }, none),
            { cf with documents := some (GoMap.insertEntry key
                { Key := key, Title := "Title for " ++ key } l) }),
          t ++ [.sleep timeSecond]) := by
  unfold CachingFeed.Fetch
  simp only [h]
  rw [Go.bind_of_ok (Feed.Fetch_eq _ _ _)]
  simp only [hl, GoMap.set, Go.lift]
  rfl

/-- C4: when `key` is present in the documents map, `CachingFeed.Fetch(key)` returns the
cached document with a nil error, leaves the receiver (hence its map) as it was, and adds
nothing to the trace: the embedded `Feed.Fetch` is not called. -/
theorem C4_Fetch_cached_key (cf : CachingFeed) (key : String) (doc : Document)
    (t : List Event) (h : cf.documents.get? key = some doc) :
    cf.Fetch key t = (.ok ((doc, none), cf), t)
      ∧ feedFetchCalls (cf.Fetch key t).2 = feedFetchCalls t := by
  have hf := CachingFeed.Fetch_of_cached cf key doc t h
  exact ⟨hf, by rw [hf]⟩

theorem C4_Fetch_cached_key_witness :
    cachingFeedWithA.documents.get? "a" = some { Key := "a", Title := "Title for a" }
      ∧ cachingFeedWithA.Fetch "a" []
          = (.ok (({ Key := "a", Title := "Title for a" }, none), cachingFeedWithA), [])
      ∧ feedFetchCalls (cachingFeedWithA.Fetch "a" []).2 = feedFetchCalls [] :=
  ⟨by decide, C4_Fetch_cached_key cachingFeedWithA "a" _ [] (by decide)⟩

/-- C5 fails as stated: on the zero value `CachingFeed{}` the key `"a"` is absent, and
`Fetch("a")` calls `Feed.Fetch` and then panics on the assignment to the nil map. -/
theorem C5_Fetch_absent_key_nil_map_panics :
    zeroCachingFeed.documents.get? "a" = none
      ∧ zeroCachingFeed.Fetch "a" [] = (.error .nilMapAssignment, [.sleep timeSecond]) :=
  ⟨by decide, rfl⟩

/-- C5, amended: for a `CachingFeed` whose documents map is initialised (not nil) and a
key absent from it, `Fetch(key)` calls the embedded `Feed.Fetch` exactly once, returns the
document of that call with a nil error, stores it under `key`, and leaves every other
entry of the map as it was. -/
theorem C5_Fetch_absent_key (cf : CachingFeed) (key : String) (l : List (String × Document))
    (t : List Event) (hl : cf.documents = some l) (h : cf.documents.get? key = none) :
    ∃ doc t1 cf1,
      cf.Feed.Fetch key t = (.ok (doc, none), t1)
        ∧ cf.Fetch key t = (.ok ((doc, none), cf1), t1)
        ∧ feedFetchCalls t1 = feedFetchCalls t + 1
        ∧ cf1.Feed = cf.Feed
        ∧ cf1.documents.get? key = some doc
        ∧ ∀ k, k ≠ key → cf1.documents.get? k = cf.documents.get? k := by
  refine ⟨_, _, _, Feed.Fetch_eq _ _ _, CachingFeed.Fetch_of_absent cf key l t hl h,
    feedFetchCalls_append_sleep _ _, rfl, ?_, ?_⟩
  · exact GoMap.lookup_insertEntry_self _ _ _
  · intro k hk
    rw [hl]
    exact GoMap.lookup_insertEntry_of_ne _ _ _ _ hk

theorem C5_Fetch_absent_key_witness :
    (NewCachingFeed none).documents = some []
      ∧ (NewCachingFeed none).documents.get? "a" = none
      ∧ ∃ doc t1 cf1,
        (NewCachingFeed none).Feed.Fetch "a" [] = (.ok (doc, none), t1)
          ∧ (NewCachingFeed none).Fetch "a" [] = (.ok ((doc, none), cf1), t1)
          ∧ feedFetchCalls t1 = feedFetchCalls [] + 1
          ∧ cf1.Feed = (NewCachingFeed none).Feed
          ∧ cf1.documents.get? "a" = some doc
          ∧ ∀ k, k ≠ "a" → cf1.documents.get? k = (NewCachingFeed none).documents.get? k :=
  ⟨rfl, by decide, C5_Fetch_absent_key (NewCachingFeed none) "a" [] [] rfl (by decide)⟩

/-! ### Sequences of fetches -/

theorem FetchCounter.Fetch_feed (f : Feed) (key : String) (t : List Event) :
    FetchCounter.Fetch (.feed f) key t
      = (.ok ((documentFor key, none), .feed f), t ++ [.sleep timeSecond]) := rfl

theorem FetchCounter.Fetch_cachingFeed {cf cf1 : CachingFeed} {key : String}
    {t t1 : List Event} {r : Document × GoError} (h : cf.Fetch key t = (.ok (r, cf1), t1)) :
    FetchCounter.Fetch (.cachingFeed cf) key t = (.ok (r, .cachingFeed cf1), t1) := by
  simp only [FetchCounter.Fetch]
  rw [Go.bind_of_ok h]
  rfl

theorem CachingFeed.Fetch_cached_entries (l : List (String × Document)) (key : String)
    (d : Document) (t : List Event) (hk : l.lookup key = some d) :
    CachingFeed.Fetch { Feed := {}, documents := some l } key t
      = (.ok ((d, none), { Feed := {}, documents := some l }), t) :=
  CachingFeed.Fetch_of_cached { Feed := {}, documents := some l } key d t hk

theorem CachingFeed.Fetch_absent_entries (l : List (String × Document)) (key : String)
    (t : List Event) (hk : l.lookup key = none) :
    CachingFeed.Fetch { Feed := {}, documents := some l } key t
      = (.ok ((documentFor key, none),
            { Feed := {}, documents := some (GoMap.insertEntry key (documentFor key) l) }),
          t ++ [.sleep timeSecond]) :=
  CachingFeed.Fetch_of_absent { Feed := {}, documents := some l } key l t rfl hk

theorem CacheConsistent.insertEntry {l : List (String × Document)} (h : CacheConsistent l)
    (key : String) : CacheConsistent (GoMap.insertEntry key (documentFor key) l) := by
  intro k d hk
  by_cases hkey : k = key
  · subst hkey
    rw [GoMap.lookup_insertEntry_self] at hk
    exact (Option.some.inj hk).symm
  · rw [GoMap.lookup_insertEntry_of_ne _ _ _ _ hkey] at hk
    exact h k d hk

/-- Keys of a list that are not cached in `l`, counted without repetition. -/
theorem card_missing_cons_of_cached {l : List (String × Document)} {key : String} {d : Document}
    (rest : List String) (h : l.lookup key = some d) :
    ((key :: rest).toFinset.filter fun k => l.lookup k = none).card
      = (rest.toFinset.filter fun k => l.lookup k = none).card := by
  rw [List.toFinset_cons, Finset.filter_insert, if_neg (by simp [h])]

theorem card_missing_cons_of_absent {l : List (String × Document)} {key : String}
    (rest : List String) (v : Document) (h : l.lookup key = none) :
    ((key :: rest).toFinset.filter fun k => l.lookup k = none).card
      = (rest.toFinset.filter fun k => (GoMap.insertEntry key v l).lookup k = none).card + 1 := by
  rw [List.toFinset_cons, Finset.filter_insert, if_pos h]
  have hfil : (rest.toFinset.filter fun k => (GoMap.insertEntry key v l).lookup k = none)
      = (rest.toFinset.filter fun k => l.lookup k = none).erase key := by
    ext k
    simp only [Finset.mem_filter, Finset.mem_erase, List.mem_toFinset]
    by_cases hk : k = key
    · subst hk
      simp [GoMap.lookup_insertEntry_self]
    · rw [GoMap.lookup_insertEntry_of_ne _ _ _ _ hk]
      tauto
  rw [hfil]
  by_cases hmem : key ∈ rest.toFinset.filter fun k => l.lookup k = none
  · rw [Finset.insert_eq_of_mem hmem, Finset.card_erase_add_one hmem]
  · rw [Finset.card_insert_of_not_mem hmem, Finset.erase_eq_of_not_mem hmem]

theorem fetchAll_feed (f : Feed) (keys : List String) (t : List Event) :
    ∃ t1, fetchAll (.feed f) keys t
        = (.ok (keys.map fun k => (documentFor k, none), .feed f), t1)
      ∧ feedFetchCalls t1 = feedFetchCalls t + keys.length := by
  induction keys generalizing t with
  | nil => exact ⟨t, rfl, rfl⟩
  | cons key rest ih =>
    obtain ⟨t1, h1, h2⟩ := ih (t ++ [.sleep timeSecond])
    refine ⟨t1, ?_, ?_⟩
    · unfold fetchAll
      rw [Go.bind_of_ok (FetchCounter.Fetch_feed f key t)]
      simp only []
      rw [Go.bind_of_ok h1]
      rfl
    · rw [h2, feedFetchCalls_append_sleep, List.length_cons]
      omega

theorem fetchAll_cachingFeed (keys : List String) (l : List (String × Document))
    (t : List Event) (hl : CacheConsistent l) :
    ∃ l1 t1, fetchAll (.cachingFeed { Feed := {}, documents := some l }) keys t
        = (.ok (keys.map fun k => (documentFor k, none),
            .cachingFeed { Feed := {}, documents := some l1 }), t1)
      ∧ feedFetchCalls t1
        = feedFetchCalls t + (keys.toFinset.filter fun k => l.lookup k = none).card := by
  induction keys generalizing l t with
  | nil => exact ⟨l, t, rfl, by simp⟩
  | cons key rest ih =>
    cases hk : l.lookup key with
    | some d =>
      have hd : d = documentFor key := hl key d hk
      subst hd
      obtain ⟨l1, t1, h1, h2⟩ := ih l t hl
      refine ⟨l1, t1, ?_, ?_⟩
      · unfold fetchAll
        rw [Go.bind_of_ok (FetchCounter.Fetch_cachingFeed
          (CachingFeed.Fetch_cached_entries l key _ t hk))]
        simp only []
        rw [Go.bind_of_ok h1]
        rfl
      · rw [h2, card_missing_cons_of_cached rest hk]
    | none =>
      obtain ⟨l1, t1, h1, h2⟩ := ih (GoMap.insertEntry key (documentFor key) l)
        (t ++ [.sleep timeSecond]) (hl.insertEntry key)
      refine ⟨l1, t1, ?_, ?_⟩
      · unfold fetchAll
        rw [Go.bind_of_ok (FetchCounter.Fetch_cachingFeed
          (CachingFeed.Fetch_absent_entries l key t hk))]
        simp only []
        rw [Go.bind_of_ok h1]
        rfl
      · rw [h2, feedFetchCalls_append_sleep,
          card_missing_cons_of_absent rest (documentFor key) hk]
        omega

theorem card_missing_nil (keys : List String) :
    (keys.toFinset.filter fun k => ([] : List (String × Document)).lookup k = none).card
      = keys.dedup.length := by
  rw [← List.card_toFinset]
  congr 1
  apply Finset.filter_true_of_mem
  intro k _
  rfl

/-- C6: fetching any sequence of keys through a `CachingFeed` made by `NewCachingFeed`
returns normally and calls the embedded `Feed.Fetch` as many times as the sequence has
distinct keys; for the keys of `process` (two distinct ones) that is 2 calls through the
`CachingFeed` against 6 through a `Feed`. -/
theorem C6_feed_calls_equal_distinct_keys (f : Option Feed) (keys : List String) :
    (∃ rs fc t1, (fetchAll (.cachingFeed (NewCachingFeed f)) keys).run = (.ok (rs, fc), t1)
        ∧ feedFetchCalls t1 = keys.dedup.length)
      ∧ (["a", "a", "a", "b", "b", "b"] : List String).dedup.length = 2
      ∧ feedFetchCalls (process (.cachingFeed (NewCachingFeed f))).run.2 = 2
      ∧ feedFetchCalls (process (.feed {})).run.2 = 6 := by
  refine ⟨?_, by decide, by rfl, by rfl⟩
  obtain ⟨l1, t1, h1, h2⟩ := fetchAll_cachingFeed keys [] [] (fun _ _ h => by cases h)
  refine ⟨_, _, t1, h1, ?_⟩
  rw [h2, card_missing_nil]
  exact Nat.zero_add _

/-- C7: for every feed argument and every sequence of keys, the fetches through
`NewCachingFeed(f)` return, call by call, the documents and nil errors that the fetches
through a `Feed` return; `Count` is 42 on both; and `process` returns normally and prints
the same sequence of lines on both. -/
theorem C7_cachingFeed_refines_feed (f : Option Feed) (feed : Feed) (keys : List String) :
    (∃ rs fc1 t1 fc2 t2,
        (fetchAll (.cachingFeed (NewCachingFeed f)) keys).run = (.ok (rs, fc1), t1)
          ∧ (fetchAll (.feed feed) keys).run = (.ok (rs, fc2), t2)
          ∧ ∀ r ∈ rs, r.2 = none)
      ∧ (NewCachingFeed f).Count = 42 ∧ feed.Count = 42
      ∧ FetchCounter.Count (.cachingFeed (NewCachingFeed f)) = FetchCounter.Count (.feed feed)
      ∧ (∃ fc1 t1 fc2 t2,
          (process (.cachingFeed (NewCachingFeed f))).run = (.ok fc1, t1)
            ∧ (process (.feed feed)).run = (.ok fc2, t2)
            ∧ printed t1 = printed t2) := by
  refine ⟨?_, rfl, rfl, rfl, ⟨_, _, _, _, rfl, rfl, by rfl⟩⟩
  obtain ⟨l1, t1, h1, _⟩ := fetchAll_cachingFeed keys [] [] (fun _ _ h => by cases h)
  obtain ⟨t2, h2, _⟩ := fetchAll_feed feed keys []
  refine ⟨_, _, t1, _, t2, h1, h2, ?_⟩
  intro r hr
  obtain ⟨k, _, rfl⟩ := List.mem_map.1 hr
  rfl

theorem couldNotFetchLines_append_sleep (t : List Event) (d : ℤ) :
    couldNotFetchLines (t ++ [.sleep d]) = couldNotFetchLines t := by
  simp [couldNotFetchLines, List.countP_append]

theorem couldNotFetchLines_append_printf (t : List Event) (format : String)
    (args : List Value) :
    couldNotFetchLines (t ++ [.printf format args]) = couldNotFetchLines t := by
  simp [couldNotFetchLines, List.countP_append]

theorem documentLines_append_sleep (t : List Event) (d : ℤ) :
    documentLines (t ++ [.sleep d]) = documentLines t := by
  simp [documentLines, List.countP_append]

theorem documentLines_append_line (t : List Event) (args : List Value) :
    documentLines (t ++ [.printf "%s : %v\n" args]) = documentLines t + 1 := by
  simp [documentLines, List.countP_append]

/-- The loop of `process` on a `CachingFeed` with an initialised map, whatever the map
holds: it returns normally, logs no failure and prints one document line per key. -/
theorem processKeys_cachingFeed (keys : List String) (l : List (String × Document))
    (t : List Event) :
    ∃ l1 t1, processKeys (.cachingFeed { Feed := {}, documents := some l }) keys t
        = (.ok (.cachingFeed { Feed := {}, documents := some l1 }), t1)
      ∧ couldNotFetchLines t1 = couldNotFetchLines t
      ∧ documentLines t1 = documentLines t + keys.length := by
  induction keys generalizing l t with
  | nil => exact ⟨l, t, rfl, rfl, rfl⟩
  | cons key rest ih =>
    cases hk : l.lookup key with
    | some d =>
      obtain ⟨l1, t1, h1, h2, h3⟩ := ih l
        (t ++ [.printf "%s : %v\n" [.string key, d.toValue]])
      refine ⟨l1, t1, ?_, ?_, ?_⟩
      · unfold processKeys
        rw [Go.bind_of_ok (FetchCounter.Fetch_cachingFeed
          (CachingFeed.Fetch_cached_entries l key d t hk))]
        exact h1
      · rw [h2, couldNotFetchLines_append_printf]
      · rw [h3, documentLines_append_line, List.length_cons]
        omega
    | none =>
      obtain ⟨l1, t1, h1, h2, h3⟩ := ih (GoMap.insertEntry key (documentFor key) l)
        (t ++ [.sleep timeSecond]
          ++ [.printf "%s : %v\n" [.string key, (documentFor key).toValue]])
      refine ⟨l1, t1, ?_, ?_, ?_⟩
      · unfold processKeys
        rw [Go.bind_of_ok (FetchCounter.Fetch_cachingFeed
          (CachingFeed.Fetch_absent_entries l key t hk))]
        exact h1
      · rw [h2, couldNotFetchLines_append_printf, couldNotFetchLines_append_sleep]
      · rw [h3, documentLines_append_line, documentLines_append_sleep, List.length_cons]
        omega

/-- C8 fails as stated: on the zero value `CachingFeed{}` (nil map) `process` prints its
first line, calls `Feed.Fetch` for the first key and panics on the assignment to the nil
map, with no document line printed. -/
theorem C8_process_zero_CachingFeed_panics :
    (process (.cachingFeed zeroCachingFeed)).run.1 = .error .nilMapAssignment
      ∧ documentLines (process (.cachingFeed zeroCachingFeed)).run.2 = 0 :=
  ⟨by rfl, by rfl⟩

/-- C8, amended: `Feed.Fetch(key)` returns `Document{Key: key, Title: "Title for " + key}`
with a nil error, for every key; `process` returns normally, never logs "Could not
fetch", and prints one document line for each of its six keys, on a `Feed` and on every
`CachingFeed` whose documents map is initialised (not nil), whatever it already caches. -/
theorem C8_Feed_Fetch_never_fails (f : Feed) (key : String) (t : List Event)
    (cf : CachingFeed) (l : List (String × Document)) (hl : cf.documents = some l) :
    (f.Fetch key t).1 = .ok ({ Key := key, Title := "Title for " ++ key }, none)
      ∧ (∃ fc t1, (process (.feed f)).run = (.ok fc, t1)
          ∧ couldNotFetchLines t1 = 0 ∧ documentLines t1 = 6)
      ∧ (∃ fc t1, (process (.cachingFeed cf)).run = (.ok fc, t1)
          ∧ couldNotFetchLines t1 = 0 ∧ documentLines t1 = 6) := by
  refine ⟨rfl, ⟨_, _, rfl, by rfl, by rfl⟩, ?_⟩
  obtain ⟨feed, documents⟩ := cf
  cases feed
  simp only at hl
  subst hl
  obtain ⟨l1, t1, h1, h2, h3⟩ := processKeys_cachingFeed ["a", "a", "a", "b", "b", "b"] l
    [.printf "There are %d documents\n" [.int 42]]
  refine ⟨.cachingFeed { Feed := {}, documents := some l1 }, t1, h1, ?_, ?_⟩
  · rw [h2]
    rfl
  · rw [h3]
    rfl

theorem C8_Feed_Fetch_never_fails_witness :
    cachingFeedWithA.documents = some [("a", { Key := "a", Title := "Title for a" })]
      ∧ (Feed.Fetch {} "a" []).1 = .ok ({ Key := "a", Title := "Title for " ++ "a" }, none)
      ∧ (∃ fc t1, (process (.feed {})).run = (.ok fc, t1)
          ∧ couldNotFetchLines t1 = 0 ∧ documentLines t1 = 6)
      ∧ (∃ fc t1, (process (.cachingFeed cachingFeedWithA)).run = (.ok fc, t1)
          ∧ couldNotFetchLines t1 = 0 ∧ documentLines t1 = 6) :=
  ⟨rfl, C8_Feed_Fetch_never_fails {} "a" [] cachingFeedWithA _ rfl⟩

/-! ## `toy` -/

/-- C9: `toy.New(name, weight)` returns a toy with the given name and weight whose
`OnHand()` and `Sold()` are both 0. -/
theorem C9_toy_New (name : String) (weight : ℤ) :
    (toy.New name weight).Name = name
      ∧ (toy.New name weight).Weight = weight
      ∧ (toy.New name weight).OnHand = 0
      ∧ (toy.New name weight).Sold = 0 :=
  ⟨rfl, rfl, rfl, rfl⟩

/-! ## Running to completion -/

theorem Go.NoPanic.pure {α : Type} (a : α) : Go.NoPanic (Pure.pure a : Go α) :=
  fun t => ⟨a, t, rfl⟩

theorem Go.NoPanic.bind {α β : Type} {m : Go α} {f : α → Go β} (hm : Go.NoPanic m)
    (hf : ∀ a, Go.NoPanic (f a)) : Go.NoPanic (m >>= f) := by
  intro t
  obtain ⟨a, t1, h1⟩ := hm t
  obtain ⟨b, t2, h2⟩ := hf a t1
  exact ⟨b, t2, by rw [Go.bind_of_ok h1, h2]⟩

theorem Go.NoPanic.emit (e : Event) : Go.NoPanic (Go.emit e) :=
  fun t => ⟨(), t ++ [e], rfl⟩

theorem Go.NoPanic.fmtPrintln (args : List Value) : Go.NoPanic (fmtPrintln args) :=
  Go.NoPanic.emit _

theorem Go.NoPanic.fmtPrintf (format : String) (args : List Value) :
    Go.NoPanic (fmtPrintf format args) :=
  Go.NoPanic.emit _

theorem Go.NoPanic.lift_ok {α : Type} (a : α) : Go.NoPanic (Go.lift (.ok a)) :=
  fun t => ⟨a, t, rfl⟩

theorem Go.NoPanic.forIn {α β : Type} (xs : List α) (init : β)
    (f : α → β → Go (ForInStep β)) (hf : ∀ a b, Go.NoPanic (f a b)) :
    Go.NoPanic (forIn xs init f) := by
  induction xs generalizing init with
  | nil =>
    rw [List.forIn_nil]
    exact Go.NoPanic.pure init
  | cons x rest ih =>
    rw [List.forIn_cons]
    apply Go.NoPanic.bind (hf x init)
    intro step
    cases step with
    | done b => exact Go.NoPanic.pure b
    | yield b => exact ih b

theorem Go.NoPanic.bind_lift_ok {α β : Type} {e : Except Panic α} {a : α} {f : α → Go β}
    (he : e = .ok a) (hf : Go.NoPanic (f a)) : Go.NoPanic (Go.lift e >>= f) := by
  subst he
  intro t
  obtain ⟨c, t1, h1⟩ := hf t
  exact ⟨c, t1, by rw [Go.bind_of_ok (rfl : Go.lift (.ok a) t = (.ok a, t)), h1]⟩

/-- A program of result `Unit` that never panics returns `()` from the empty trace. -/
theorem Go.NoPanic.run_eq {m : Go Unit} (h : Go.NoPanic m) : m.run.1 = .ok () := by
  obtain ⟨a, t1, h1⟩ := h []
  unfold Go.run
  rw [h1]

theorem MapsExample3_noPanic (rt : Runtime) : Go.NoPanic (MapsExample3 rt) := by
  unfold MapsExample3
  dsimp only
  repeat' first
    | exact Go.NoPanic.pure _
    | exact Go.NoPanic.fmtPrintln _
    | exact Go.NoPanic.fmtPrintf _ _
    | refine Go.NoPanic.forIn _ _ _ (fun _ _ => ?_)
    | refine Go.NoPanic.bind ?_ (fun _ => ?_)

theorem MapsExample4_noPanic (rt : Runtime) : Go.NoPanic (MapsExample4 rt) := by
  unfold MapsExample4
  dsimp only
  repeat' first
    | exact Go.NoPanic.pure _
    | exact Go.NoPanic.fmtPrintln _
    | exact Go.NoPanic.fmtPrintf _ _
    | refine Go.NoPanic.forIn _ _ _ (fun _ _ => ?_)
    | refine Go.NoPanic.bind ?_ (fun _ => ?_)

theorem MapsExercise1_noPanic (rt : Runtime) : Go.NoPanic (MapsExercise1 rt) := by
  unfold MapsExercise1
  dsimp only
  repeat' first
    | exact Go.NoPanic.pure _
    | exact Go.NoPanic.fmtPrintln _
    | exact Go.NoPanic.fmtPrintf _ _
    | refine Go.NoPanic.bind_lift_ok rfl ?_
    | refine Go.NoPanic.forIn _ _ _ (fun _ _ => ?_)
    | refine Go.NoPanic.bind ?_ (fun _ => ?_)

theorem MapsExample5_noPanic (rt : Runtime) : Go.NoPanic (MapsExample5 rt) := by
  unfold MapsExample5
  dsimp only
  repeat' first
    | exact Go.NoPanic.pure _
    | exact Go.NoPanic.fmtPrintln _
    | exact Go.NoPanic.fmtPrintf _ _
    | exact Go.NoPanic.lift_ok _
    | refine Go.NoPanic.forIn _ _ _ (fun _ _ => ?_)
    | refine Go.NoPanic.bind ?_ (fun _ => ?_)

theorem Heap.append_one_len {α : Type} (rt : Runtime) (zero : α) (h : Heap α) (s : Slice)
    (v : α) : (h.append rt zero s [v]).2.len = s.len + 1 := by
  unfold Heap.append
  dsimp only
  split <;> rfl

theorem checkIndex_zero_succ (n : ℕ) : checkIndex 0 (n + 1) = .ok 0 := by
  unfold checkIndex
  rw [if_pos ⟨le_refl _, by exact_mod_cast Nat.succ_pos n⟩]
  rfl

theorem SlicesExample4.run_noPanic (rt : Runtime) (records : List ℕ) :
    Go.NoPanic (SlicesExample4.run rt records) := by
  unfold SlicesExample4.run
  dsimp only
  refine Go.NoPanic.bind ?_ (fun _ => Go.NoPanic.pure _)
  refine Go.NoPanic.forIn _ _ _ (fun record st => ?_)
  split
  · rw [Heap.append_one_len, checkIndex_zero_succ]
    refine Go.NoPanic.bind_lift_ok rfl ?_
    exact Go.NoPanic.bind (Go.NoPanic.fmtPrintf _ _) (fun _ => Go.NoPanic.pure _)
  · exact Go.NoPanic.bind (Go.NoPanic.pure _) (fun _ => Go.NoPanic.pure _)

theorem SlicesExample4_noPanic (rt : Runtime) : Go.NoPanic (SlicesExample4 rt) :=
  SlicesExample4.run_noPanic rt _

theorem MethodsExample2_hours :
    duration.hours (duration.setHours 0 (Float64.ofRat 5)) = .ok (.finite 5) := by
  have h := hours_setHours_of_ne_zero 0 5 (by norm_num) (by norm_num)
  have hc : Float64.ofInt 5 = Float64.ofRat 5 := by
    unfold Float64.ofInt
    norm_num
  rw [hc] at h
  rw [h]
  norm_num

theorem MethodsExample2_run : MethodsExample2.run.1 = .ok () := by
  unfold MethodsExample2 Go.run
  dsimp only
  rw [Go.bind_of_ok (by rw [MethodsExample2_hours]; rfl)]
  rfl

/-- `SlicesExample8` does not run to completion either: its second loop ranges over the
five indexes of the slice it has cut down to two elements, and the read `friends[2]`
panics after `Annie` and `Betty` have been printed. -/
theorem SlicesExample8_panics :
    SlicesExample8.run.1 = .error (.indexOutOfRange 2 2) ∧ SlicesExample8.run.2.length = 8 :=
  ⟨by rfl, by rfl⟩

/-- C10 fails as stated: `SlicesExample1` does not run to completion, it ends in the
index-out-of-range panic of the assignment `fruits[5]` on a slice of length 5. -/
theorem C10_SlicesExample1_panics :
    (ExampleFunction.program Runtime.simple .SlicesExample1).run.1
      = .error (.indexOutOfRange 5 5) := by
  rfl

/-- C10, amended: every example and exercise function other than `SlicesExample1` and
`SlicesExample8` runs to completion without a runtime panic, whatever the runtime chooses
for slice growth, map iteration order and the clock. -/
theorem C10_examples_run_to_completion (rt : Runtime) (e : ExampleFunction)
    (h1 : e ≠ .SlicesExample1) (h8 : e ≠ .SlicesExample8) :
    (e.program rt).run.1 = .ok () := by
  cases e
  case SlicesExample1 => exact absurd rfl h1
  case SlicesExample8 => exact absurd rfl h8
  case MapsExample3 => exact (MapsExample3_noPanic rt).run_eq
  case MapsExample4 => exact (MapsExample4_noPanic rt).run_eq
  case MapsExample5 => exact (MapsExample5_noPanic rt).run_eq
  case MapsExercise1 => exact (MapsExercise1_noPanic rt).run_eq
  case SlicesExample4 => exact (SlicesExample4_noPanic rt).run_eq
  case MethodsExample2 => exact MethodsExample2_run
  all_goals rfl

theorem C10_examples_run_to_completion_witness :
    ExampleFunction.MapsExample5 ≠ .SlicesExample1
      ∧ ExampleFunction.MapsExample5 ≠ .SlicesExample8
      ∧ (ExampleFunction.program Runtime.simple .MapsExample5).run.1 = .ok () :=
  ⟨by decide, by decide,
    C10_examples_run_to_completion Runtime.simple .MapsExample5 (by decide) (by decide)⟩

/-! ## `SlicesExample1`, `main` and the type switch of `InterfacesExample7` -/

/-- C11: in `SlicesExample1` the five assignments `fruits[0]` to `fruits[4]` on the
slice of length 5 succeed and fill it, the assignment `fruits[5]` fails with an index out
of range, and the run ends in that panic with nothing printed. -/
theorem C11_SlicesExample1_index_out_of_range :
    (Heap.make "" Heap.empty 5 5).2.len = 5
      ∧ (∃ h5 : Heap String,
          ((Heap.make "" Heap.empty 5 5).1.set (Heap.make "" Heap.empty 5 5).2 0 "Apple"
              >>= fun h => h.set (Heap.make "" Heap.empty 5 5).2 1 "Orange"
              >>= fun h => h.set (Heap.make "" Heap.empty 5 5).2 2 "Banana"
              >>= fun h => h.set (Heap.make "" Heap.empty 5 5).2 3 "Grape"
              >>= fun h => h.set (Heap.make "" Heap.empty 5 5).2 4 "Plum") = .ok h5
            ∧ h5.elems "" (Heap.make "" Heap.empty 5 5).2
                = ["Apple", "Orange", "Banana", "Grape", "Plum"]
            ∧ h5.set (Heap.make "" Heap.empty 5 5).2 5 "Runtime error"
                = .error (.indexOutOfRange 5 5))
      ∧ SlicesExample1.run = (.error (.indexOutOfRange 5 5), [])
      ∧ stdoutText SlicesExample1.run.2 = some "" :=
  ⟨rfl, ⟨_, rfl, rfl, rfl⟩, rfl, rfl⟩

/-- The float64 value of the constant `3.14159`. -/
theorem ofRat_pi_literal :
    Float64.ofRat 3.14159 = .finite (7074231776675438 / 2 ^ 51) := by
  have hq : (3.14159 : ℚ) = 314159 / 100000 := by norm_num
  have hr : roundBinary 53 (-1074) (314159 / 100000 : ℚ)
      = ((7074231776675438 : ℤ) : ℚ) * (2 : ℚ) ^ ((1 : ℤ) - (((53 : ℕ) : ℤ) - 1)) := by
    apply roundBinary_eq_of_bounds
    · rw [abs_of_pos (by norm_num)]
      norm_num
    · rw [abs_of_pos (by norm_num)]
      norm_num
    · norm_num
    · apply roundHalfEven_eq_floor
      · norm_num
      · norm_num
  rw [hq]
  unfold Float64.ofRat
  have hv : ((7074231776675438 : ℤ) : ℚ) * (2 : ℚ) ^ ((1 : ℤ) - (((53 : ℕ) : ℤ) - 1))
      = 7074231776675438 / 2 ^ 51 := by norm_num
  rw [hv] at hr
  apply FloatVal.ofRat_eq_finite hr
  rw [abs_of_pos (by norm_num)]
  norm_num

/-- The text of `%f` for the float64 of `3.14159`. -/
theorem renderF_pi_literal :
    FloatVal.renderF (Float64.ofRat 3.14159) = some "3.141590" := by
  rw [ofRat_pi_literal]
  have hn : roundHalfEven (|(7074231776675438 / 2 ^ 51 : ℚ)| * 1000000) = 3141589 + 1 := by
    apply roundHalfEven_eq_ceil
    · rw [abs_of_pos (by norm_num)]
      norm_num
    · rw [abs_of_pos (by norm_num)]
      norm_num
  have hneg : ¬ ((7074231776675438 / 2 ^ 51 : ℚ) < 0) := by norm_num
  simp only [FloatVal.renderF, hn, if_neg hneg]
  rfl

/-- The line of the `float64` branch, for an operand whose `%f` text is known. -/
theorem sprintf_float64_line (x : FloatVal) (text : String) (h : x.renderF = some text) :
    sprintf "Is float64 : type(%T) : value(%f)\n" [.float64 x, .float64 x]
      = some ("Is float64 : type(float64) : value(" ++ text ++ ")\n") := by
  have hd : ("Is float64 : type(%T) : value(%f)\n" : String).data
      = ['I', 's', ' ', 'f', 'l', 'o', 'a', 't', '6', '4', ' ', ':', ' ', 't', 'y', 'p', 'e',
         '(', '%', 'T', ')', ' ', ':', ' ', 'v', 'a', 'l', 'u', 'e', '(', '%', 'f', ')',
         '\n'] := rfl
  unfold sprintf
  rw [hd]
  simp only [sprintfChars, h, Value.typeName, Option.map]
  rfl

/-- C12 (code defect): main.go calls `language.StructTypeExercise1`, but the function is
declared in package `syntax`, not in the imported package `language`: the identifier does
not resolve and the program does not build, so it prints nothing.  The function itself,
were it reached, returns normally and prints the `user` value with `%v` and `%+v`, then
the anonymous struct value with `%v` and `%+v`: `{James Bond 45}` and
`{Peter Parker 35}`, each followed by its `%+v` form. -/
theorem C12_main_does_not_build (rt : Runtime) :
    main rt = .error (.undefined .languagePkg .StructTypeExercise1)
      ∧ ExampleFunction.StructTypeExercise1.package = .syntaxPkg
      ∧ resolveQualified .syntaxPkg .StructTypeExercise1 = .ok .StructTypeExercise1
      ∧ StructTypeExercise1.run = (.ok (),
          [.printf "%v\n" [.named "user" (.struct [("firstNane", .string "James"),
              ("lastName", .string "Bond"), ("age", .int16 45)])],
           .printf "%+v\n" [.named "user" (.struct [("firstNane", .string "James"),
              ("lastName", .string "Bond"), ("age", .int16 45)])],
           .printf "%v\n" [.struct [("firstNane", .string "Peter"),
              ("lastName", .string "Parker"), ("age", .int16 35)]],
           .printf "%+v\n" [.struct [("firstNane", .string "Peter"),
              ("lastName", .string "Parker"), ("age", .int16 35)]]])
      ∧ stdoutText StructTypeExercise1.run.2
          = some ("{James Bond 45}\n" ++ "{firstNane:James lastName:Bond age:45}\n"
              ++ "{Peter Parker 35}\n" ++ "{firstNane:Peter lastName:Parker age:35}\n") :=
  ⟨rfl, rfl, rfl, rfl, by rfl⟩

/-- C13: for every value `a` passed to `myPrintln`, the type switch runs the `string`
branch exactly when `a` holds a string, the `int` branch exactly when it holds an int,
the `float64` branch exactly when it holds a float64, and the default "Is unknown" branch
in every other case; each branch is one `Printf` of `a`.  The four calls of
`InterfacesExample7` print the lines of the string, int and float64 branches and, for
`true`, the "Is unknown" line with type `bool`. -/
theorem C13_myPrintln_type_switch (a : Value) :
    ((InterfacesExample7.myPrintln a).run
          = (.ok (), [.printf "Is string  : type(%T) : value(%s)\n" [a, a]])
        ↔ a.isString = true)
      ∧ ((InterfacesExample7.myPrintln a).run
          = (.ok (), [.printf "Is int     : type(%T) : value(%d)\n" [a, a]])
        ↔ a.isInt = true)
      ∧ ((InterfacesExample7.myPrintln a).run
          = (.ok (), [.printf "Is float64 : type(%T) : value(%f)\n" [a, a]])
        ↔ a.isFloat64 = true)
      ∧ ((InterfacesExample7.myPrintln a).run
          = (.ok (), [.printf "Is unknown : type(%T) : value(%v)\n" [a, a]])
        ↔ a.isString = false ∧ a.isInt = false ∧ a.isFloat64 = false)
      ∧ InterfacesExample7.run = (.ok (),
          [.println [.string "Hello, world"],
           .println [.int 12345],
           .println [.float64 (Float64.ofRat 3.14159)],
           .println [.bool true],
           .printf "Is string  : type(%T) : value(%s)\n"
             [.string "Hello, world", .string "Hello, world"],
           .printf "Is int     : type(%T) : value(%d)\n" [.int 12345, .int 12345],
           .printf "Is float64 : type(%T) : value(%f)\n"
             [.float64 (Float64.ofRat 3.14159), .float64 (Float64.ofRat 3.14159)],
           .printf "Is unknown : type(%T) : value(%v)\n" [.bool true, .bool true]])
      ∧ sprintf "Is string  : type(%T) : value(%s)\n"
            [.string "Hello, world", .string "Hello, world"]
          = some "Is string  : type(string) : value(Hello, world)\n"
      ∧ sprintf "Is int     : type(%T) : value(%d)\n" [.int 12345, .int 12345]
          = some "Is int     : type(int) : value(12345)\n"
      ∧ sprintf "Is float64 : type(%T) : value(%f)\n"
            [.float64 (Float64.ofRat 3.14159), .float64 (Float64.ofRat 3.14159)]
          = some "Is float64 : type(float64) : value(3.141590)\n"
      ∧ sprintf "Is unknown : type(%T) : value(%v)\n" [.bool true, .bool true]
          = some "Is unknown : type(bool) : value(true)\n" := by
  refine ⟨?_, ?_, ?_, ?_, rfl, by rfl, by rfl,
    sprintf_float64_line _ _ renderF_pi_literal, by rfl⟩
  all_goals
    cases a <;>
      simp [InterfacesExample7.myPrintln, Go.run, fmtPrintf, Go.emit, Value.isString,
        Value.isInt, Value.isFloat64]

end UltimateGo
